import Mathlib

/- Rational arithmetic is used to model Python float arithmetic, and the
witnesses below evaluate it on concrete records with `decide`; the
library marks these operations irreducible, which blocks that
evaluation, so they are made semireducible for this file. -/
attribute [local semireducible] Rat.mul Rat.inv Rat.add Rat.sub

/- Verification of the caso accounting-record layer (src/caso/record.py).

Shallow embedding conventions:
  - Python attribute values are modelled by `PyVal`: None, int, float,
    str, and datetime.  Python floats are modelled as exact rationals
    (every IEEE double is a dyadic rational, and all arithmetic that the
    source performs on durations is exact at that scale).
  - A `datetime.datetime` value is modelled by its timestamp as an
    integer count of microseconds since the Unix epoch; the record code
    only subtracts datetimes (`total_seconds`) and formats them with
    `strftime("%s")`, both of which are functions of that timestamp
    (the platform local time is taken to be UTC, matching the
    spec's §8 concrete scenario).
  - Fallible Python code (raising exceptions) is modelled with
    `Except PyErr`.  `PyErr.InvalidValue` models the `ValueError` raised
    by the duration/date setters (the spec calls it `InvalidValue`);
    `PyErr.UnknownSchemaVersion` models `caso.exception.RecordVersionNotFound`
    (the spec calls it `UnknownSchemaVersion`; `caso/exception.py` is not
    part of the sources, the record code only raises it on an unknown
    version string); `PyErr.TypeError` models the TypeError/AttributeError
    a Python operation raises on operands of the wrong type.
  - Python dicts are modelled as association lists in insertion order
    (`List (String × PyVal)`); the dicts built here never repeat a key,
    so equality of the lists coincides with Python dict equality.
-/

/-- Model of a Python value as stored in a record attribute. -/
inductive PyVal where
  | vNone
  | vInt (n : Int)
  | vFloat (q : Rat)
  | vStr (s : String)
  | vDatetime (us : Int)
deriving DecidableEq

/-- Model of the Python exceptions the record layer can raise. -/
inductive PyErr where
  | InvalidValue (msg : String)
  | UnknownSchemaVersion (version : String)
  | TypeError
deriving DecidableEq

/-- Python truthiness of a `PyVal` (`bool(x)`). -/
def PyVal.truthy : PyVal → Bool
  | .vNone => false
  | .vInt n => n != 0
  | .vFloat q => q != 0
  | .vStr s => s != ""
  | .vDatetime _ => true

/-- Whether the value is a Python `int` or `float` (`isinstance(value, (int, float))`). -/
def PyVal.isNumber : PyVal → Bool
  | .vInt _ => true
  | .vFloat _ => true
  | _ => false

/-- Whether the value is a `datetime.datetime` object. -/
def PyVal.isDatetime : PyVal → Bool
  | .vDatetime _ => true
  | _ => false

/-- Whether the value is a Python `int`. -/
def PyVal.isIntVal : PyVal → Bool
  | .vInt _ => true
  | _ => false

/-- Truncation of a rational toward zero, which is what Python's `int(float)` does. -/
def ratTrunc (q : Rat) : Int := Int.tdiv q.num (q.den : Int)

/-- Python `int(x)` for the values that can reach the duration getters.
Strings never reach the one `int(...)` call modelled with this function:
the duration setters reject every truthy non-numeric value, so a stored
duration that is truthy is always numeric. -/
def pyInt : PyVal → Except PyErr PyVal
  | .vInt n => .ok (.vInt n)
  | .vFloat q => .ok (.vInt (ratTrunc q))
  | _ => .error .TypeError

/-- Python `(a - b).total_seconds()` on two datetimes: the difference in
seconds as a float. -/
def dtSubSeconds : PyVal → PyVal → Except PyErr PyVal
  | .vDatetime a, .vDatetime b => .ok (.vFloat (((a - b : Int) : Rat) / 1000000))
  | _, _ => .error .TypeError

/-- Python `int(t.strftime("%s"))` on a datetime with Unix timestamp `us`
microseconds: the epoch second of the (microsecond-truncated) time, with
the platform local time taken to be UTC. -/
def strftimeEpoch (us : Int) : Int := Int.fdiv us 1000000

/-- The value of `t and int(t.strftime("%s"))` as `CloudRecord.map` and
`IPRecord.map` compute it for a timestamp attribute `t`: a falsy value
(None) is passed through, a datetime is formatted. -/
def startEntry : PyVal → Except PyErr PyVal
  | .vDatetime us => .ok (.vInt (strftimeEpoch us))
  | v => if v.truthy then .error .TypeError else .ok v

/-- Python multiplication `a * b` for the operand shapes reachable in
`cpu_duration` (`wall_duration * cpu_count`), including the string
repetition Python performs for `str * int`. -/
def pyMul : PyVal → PyVal → Except PyErr PyVal
  | .vInt a, .vInt b => .ok (.vInt (a * b))
  | .vInt a, .vFloat b => .ok (.vFloat ((a : Rat) * b))
  | .vFloat a, .vInt b => .ok (.vFloat (a * (b : Rat)))
  | .vFloat a, .vFloat b => .ok (.vFloat (a * b))
  | .vStr s, .vInt b => .ok (.vStr (String.join (List.replicate b.toNat s)))
  | .vInt a, .vStr s => .ok (.vStr (String.join (List.replicate a.toNat s)))
  | _, _ => .error .TypeError

/-- Python `value.encode('ascii', 'ignore').decode('utf-8')`: drop every
character outside the 7-bit ASCII range. -/
def asciiIgnore (s : String) : String := ⟨s.data.filter (fun c => c.val < 128)⟩

/-- Numeric comparison of a `PyVal` with a rational, in the sense of
Python `==` (an int and a float compare by value; None and strings never
equal a number). -/
def PyVal.numEq : PyVal → Rat → Bool
  | .vInt n, q => decide ((n : Rat) = q)
  | .vFloat p, q => decide (p = q)
  | _, _ => false

/-- Numeric comparison through the `Except` wrapper: the computation
succeeded and returned a value numerically equal to `q`. -/
def pyNumEqE : Except PyErr PyVal → Rat → Bool
  | .ok w, q => w.numEq q
  | .error _, _ => false

/-- Decidable equality of `Except` results, used to evaluate the model
on concrete records. -/
instance {ε α : Type} [DecidableEq ε] [DecidableEq α] : DecidableEq (Except ε α) := fun a b =>
  match a, b with
  | .ok x, .ok y => if h : x = y then isTrue (by rw [h]) else isFalse (by simp [h])
  | .error x, .error y => if h : x = y then isTrue (by rw [h]) else isFalse (by simp [h])
  | .ok _, .error _ => isFalse (by simp)
  | .error _, .ok _ => isFalse (by simp)

/-- Modelled from the spec: the module-level default for the cloud type
tag, `caso.user_agent` from `caso/__init__.py` (not under the sources);
the spec describes it as a fixed client identifier string. -/
def user_agent : String := "caso"

/- ## CloudRecord (the spec's UsageRecord) -/

/-- State of a `CloudRecord` instance: one `PyVal` per Python instance
attribute, in the order `__init__` assigns them.  Attributes guarded by
a property setter are stored under their underscore name, as in the
source. -/
structure CloudRecord where
  uuid : PyVal
  site : PyVal
  _name : PyVal
  user_id : PyVal
  group_id : PyVal
  fqan : PyVal
  status : PyVal
  _start_time : PyVal
  _end_time : PyVal
  suspend_duration : PyVal
  _wall_duration : PyVal
  _cpu_duration : PyVal
  network_type : PyVal
  network_in : PyVal
  network_out : PyVal
  cpu_count : PyVal
  memory : PyVal
  disk : PyVal
  image_id : PyVal
  cloud_type : PyVal
  storage_record_id : PyVal
  user_dn : PyVal
  compute_service : PyVal
  benchmark_value : PyVal
  benchmark_type : PyVal
  public_ip_count : PyVal
deriving DecidableEq

/-- Class attribute `CloudRecord.version = "0.4"`. -/
def CloudRecord.version : String := "0.4"

/-- Class attribute `CloudRecord._v02_fields`. -/
def CloudRecord._v02_fields : List String :=
  ["VMUUID", "SiteName", "MachineName", "LocalUserId", "LocalGroupId",
   "GlobalUserName", "FQAN", "Status", "StartTime", "EndTime",
   "SuspendDuration", "WallDuration", "CpuDuration", "CpuCount",
   "NetworkType", "NetworkInbound", "NetworkOutbound", "Memory", "Disk",
   "StorageRecordId", "ImageId", "CloudType"]

/-- Class attribute `CloudRecord._v04_fields = _v02_fields + [...]`. -/
def CloudRecord._v04_fields : List String :=
  CloudRecord._v02_fields ++
    ["CloudComputeService", "BenchmarkType", "Benchmark", "PublicIPCount"]

/-- Class attribute `CloudRecord._version_field_map`. -/
def CloudRecord._version_field_map : List (String × List String) :=
  [("0.2", CloudRecord._v02_fields), ("0.4", CloudRecord._v04_fields)]

/-- Property setter for `name`: store the value with non-ASCII characters
dropped.  A non-string value would make `value.encode` raise
(AttributeError). -/
def CloudRecord.set_name (r : CloudRecord) (value : PyVal) : Except PyErr CloudRecord :=
  match value with
  | .vStr s => .ok { r with _name := .vStr (asciiIgnore s) }
  | _ => .error .TypeError

/-- Property getter for `name`. -/
def CloudRecord.name (r : CloudRecord) : PyVal := r._name

/-- Property setter for `wall_duration`: rejects a truthy non-numeric
value with `ValueError("Duration must be a number")`, stores anything
else. -/
def CloudRecord.set_wall_duration (r : CloudRecord) (value : PyVal) : Except PyErr CloudRecord :=
  if value.truthy && !value.isNumber then
    .error (.InvalidValue "Duration must be a number")
  else .ok { r with _wall_duration := value }

/-- Property setter for `cpu_duration`, same validation as `wall_duration`. -/
def CloudRecord.set_cpu_duration (r : CloudRecord) (value : PyVal) : Except PyErr CloudRecord :=
  if value.truthy && !value.isNumber then
    .error (.InvalidValue "Duration must be a number")
  else .ok { r with _cpu_duration := value }

/-- Property setter for `start_time`: rejects a truthy non-datetime value
with `ValueError("Dates must be datetime.datetime objects")`. -/
def CloudRecord.set_start_time (r : CloudRecord) (value : PyVal) : Except PyErr CloudRecord :=
  if value.truthy && !value.isDatetime then
    .error (.InvalidValue "Dates must be datetime.datetime objects")
  else .ok { r with _start_time := value }

/-- Property setter for `end_time`, same validation as `start_time`. -/
def CloudRecord.set_end_time (r : CloudRecord) (value : PyVal) : Except PyErr CloudRecord :=
  if value.truthy && !value.isDatetime then
    .error (.InvalidValue "Dates must be datetime.datetime objects")
  else .ok { r with _end_time := value }

/-- The source's final getter step `return duration and int(duration)`,
lifted over the fallible computation of `duration`: a falsy duration
(None, 0, 0.0, empty string) is returned as it is, a truthy one goes
through `int(...)`. -/
def pyAndInt : Except PyErr PyVal → Except PyErr PyVal
  | .error e => .error e
  | .ok duration => if duration.truthy then pyInt duration else .ok duration

/-- Property getter for `wall_duration`:
explicit value if one is stored (`is not None`), otherwise
`(end_time - start_time).total_seconds()` when both timestamps are set,
otherwise None; the result goes through `duration and int(duration)`. -/
def CloudRecord.wall_duration (r : CloudRecord) : Except PyErr PyVal :=
  pyAndInt
    (if r._wall_duration ≠ PyVal.vNone then .ok r._wall_duration
     else if r._start_time ≠ PyVal.vNone ∧ r._end_time ≠ PyVal.vNone then
       dtSubSeconds r._end_time r._start_time
     else .ok .vNone)

/-- Property getter for `cpu_duration`: explicit value if one is stored,
otherwise `wall_duration * cpu_count` when the wall duration is not None
and `cpu_count` is truthy, otherwise None; the result goes through
`duration and int(duration)`. -/
def CloudRecord.cpu_duration (r : CloudRecord) : Except PyErr PyVal :=
  pyAndInt
    (if r._cpu_duration ≠ PyVal.vNone then .ok r._cpu_duration
     else
       match r.wall_duration with
       | .error e => .error e
       | .ok w =>
         if w ≠ PyVal.vNone ∧ r.cpu_count.truthy then pyMul w r.cpu_count
         else .ok .vNone)

/-- The `map` property: the full canonical field dictionary, in the
insertion order of the source's dict literal.  The four fallible entries
(the two timestamp conversions and the two duration getters) are
evaluated in that order, as Python evaluates the dict literal. -/
def CloudRecord.map (r : CloudRecord) : Except PyErr (List (String × PyVal)) :=
  match startEntry r._start_time, startEntry r._end_time,
        r.wall_duration, r.cpu_duration with
  | .error e, _, _, _ => .error e
  | _, .error e, _, _ => .error e
  | _, _, .error e, _ => .error e
  | _, _, _, .error e => .error e
  | .ok st, .ok et, .ok wd, .ok cd =>
    .ok [("VMUUID", r.uuid),
         ("SiteName", r.site),
         ("MachineName", r._name),
         ("LocalUserId", r.user_id),
         ("LocalGroupId", r.group_id),
         ("FQAN", r.fqan),
         ("Status", r.status),
         ("StartTime", st),
         ("EndTime", et),
         ("SuspendDuration", r.suspend_duration),
         ("WallDuration", wd),
         ("CpuDuration", cd),
         ("CpuCount", r.cpu_count),
         ("NetworkType", r.network_type),
         ("NetworkInbound", r.network_in),
         ("NetworkOutbound", r.network_out),
         ("Memory", r.memory),
         ("Disk", r.disk),
         ("StorageRecordId", r.storage_record_id),
         ("ImageId", r.image_id),
         ("CloudType", r.cloud_type),
         ("GlobalUserName", r.user_dn),
         ("PublicIPCount", r.public_ip_count),
         ("Benchmark", r.benchmark_value),
         ("BenchmarkType", r.benchmark_type),
         ("CloudComputeService", r.compute_service)]

/-- The method `as_dict(version=None)`: default the version to the class
version, reject an unknown version, and filter `map` down to the
version's field list. -/
def CloudRecord.as_dict (r : CloudRecord) (v : Option String) : Except PyErr (List (String × PyVal)) :=
  let version := v.getD CloudRecord.version
  match List.lookup version CloudRecord._version_field_map with
  | none => .error (.UnknownSchemaVersion version)
  | some fields =>
    match r.map with
    | .error e => .error e
    | .ok m => .ok (m.filter (fun kv => fields.contains kv.1))

/-- A record state with every attribute unset; `__init__` assigns every
attribute, so this base value is only a seed for the constructor and for
building explicit record states in theorems. -/
def emptyCloud : CloudRecord :=
  ⟨.vNone, .vNone, .vNone, .vNone, .vNone, .vNone, .vNone, .vNone, .vNone,
   .vNone, .vNone, .vNone, .vNone, .vNone, .vNone, .vNone, .vNone, .vNone,
   .vNone, .vNone, .vNone, .vNone, .vNone, .vNone, .vNone, .vNone⟩

/-- The constructor `CloudRecord.__init__`, with the parameters in the
order of the source signature (the three `vo*` parameters are accepted
and ignored by the source body) and the attribute assignments in the
order of the source body; a setter that raises aborts construction. -/
def CloudRecord.init
    (uuid site name user_id group_id fqan cloud_type compute_service status
     start_time end_time suspend_duration wall_duration cpu_duration
     network_type network_in network_out public_ip_count cpu_count memory disk
     image_id storage_record_id user_dn _vo _vo_group _vo_role
     benchmark_value benchmark_type : PyVal) : Except PyErr CloudRecord :=
  let r0 : CloudRecord := { emptyCloud with uuid := uuid, site := site }
  match r0.set_name name with
  | .error e => .error e
  | .ok r1 =>
    let r2 := { r1 with user_id := user_id, group_id := group_id,
                        fqan := fqan, status := status }
    match r2.set_start_time start_time with
    | .error e => .error e
    | .ok r3 =>
      match r3.set_end_time end_time with
      | .error e => .error e
      | .ok r4 =>
        let r5 := { r4 with suspend_duration := suspend_duration }
        match r5.set_wall_duration wall_duration with
        | .error e => .error e
        | .ok r6 =>
          match r6.set_cpu_duration cpu_duration with
          | .error e => .error e
          | .ok r7 =>
            .ok { r7 with
                  network_type := network_type,
                  network_in := network_in,
                  network_out := network_out,
                  cpu_count := cpu_count,
                  memory := memory,
                  disk := disk,
                  image_id := image_id,
                  cloud_type := cloud_type,
                  storage_record_id := storage_record_id,
                  user_dn := user_dn,
                  compute_service := compute_service,
                  benchmark_value := benchmark_value,
                  benchmark_type := benchmark_type,
                  public_ip_count := public_ip_count }

/- ## IPRecord (the spec's NetworkIdentityRecord) -/

/-- State of an `IPRecord` instance. -/
structure IPRecord where
  _measure_time : PyVal
  site : PyVal
  cloud_type : PyVal
  user_id : PyVal
  group_id : PyVal
  user_dn : PyVal
  fqan : PyVal
  compute_service : PyVal
  ip_version : PyVal
  public_ip_count : PyVal
deriving DecidableEq

/-- Class attribute `IPRecord.version = "0.2"`. -/
def IPRecord.version : String := "0.2"

/-- Class attribute `IPRecord._V02_fields`. -/
def IPRecord._V02_fields : List String :=
  ["MeasurementTime", "SiteName", "CloudComputeService", "CloudType",
   "LocalUser", "LocalGroup", "GlobalUserName", "FQAN", "IPVersion",
   "IPCount"]

/-- Class attribute `IPRecord._version_field_map`. -/
def IPRecord._version_field_map : List (String × List String) :=
  [("0.2", IPRecord._V02_fields)]

/-- Property setter for `measure_time`: rejects a truthy non-datetime
value. -/
def IPRecord.set_measure_time (r : IPRecord) (value : PyVal) : Except PyErr IPRecord :=
  if value.truthy && !value.isDatetime then
    .error (.InvalidValue "Dates must be datetime.datetime objects")
  else .ok { r with _measure_time := value }

/-- An `IPRecord` state with every attribute unset, seed for the
constructor. -/
def emptyIP : IPRecord :=
  ⟨.vNone, .vNone, .vNone, .vNone, .vNone, .vNone, .vNone, .vNone, .vNone,
   .vNone⟩

/-- The constructor `IPRecord.__init__`, parameters in source order. -/
def IPRecord.init
    (measure_time site user_id group_id user_dn fqan ip_version
     public_ip_count cloud_type compute_service : PyVal) : Except PyErr IPRecord :=
  match emptyIP.set_measure_time measure_time with
  | .error e => .error e
  | .ok r1 =>
    .ok { r1 with site := site, cloud_type := cloud_type, user_id := user_id,
                  group_id := group_id, user_dn := user_dn, fqan := fqan,
                  compute_service := compute_service, ip_version := ip_version,
                  public_ip_count := public_ip_count }

/-- The `map` property of `IPRecord`, in source dict order. -/
def IPRecord.map (r : IPRecord) : Except PyErr (List (String × PyVal)) :=
  match startEntry r._measure_time with
  | .error e => .error e
  | .ok mt =>
    .ok [("MeasurementTime", mt),
         ("SiteName", r.site),
         ("CloudType", r.cloud_type),
         ("LocalUser", r.user_id),
         ("LocalGroup", r.group_id),
         ("FQAN", r.fqan),
         ("GlobalUserName", r.user_dn),
         ("IPVersion", r.ip_version),
         ("IPCount", r.public_ip_count),
         ("CloudComputeService", r.compute_service)]

/-- The method `IPRecord.as_dict(version=None)`. -/
def IPRecord.as_dict (r : IPRecord) (v : Option String) : Except PyErr (List (String × PyVal)) :=
  let version := v.getD IPRecord.version
  match List.lookup version IPRecord._version_field_map with
  | none => .error (.UnknownSchemaVersion version)
  | some fields =>
    match r.map with
    | .error e => .error e
    | .ok m => .ok (m.filter (fun kv => fields.contains kv.1))

/- ## AcceleratorRecord -/

/-- State of an `AcceleratorRecord` instance.  The source line
`self.accelerator_type = self.accelerator_type` is a no-op and is not
modelled. -/
structure AcceleratorRecord where
  measurement_month : PyVal
  measurement_year : PyVal
  associated_record_type : PyVal
  uuid : PyVal
  fqan : PyVal
  site : PyVal
  count : PyVal
  available_duration : PyVal
  accelerator_type : PyVal
  user_dn : PyVal
  cores : PyVal
  _active_duration : PyVal
  benchmark_type : PyVal
  benchmark : PyVal
  model : PyVal
deriving DecidableEq

/-- Class attribute `AcceleratorRecord.version = "0.1"`. -/
def AcceleratorRecord.version : String := "0.1"

/-- Class attribute `AcceleratorRecord._V01_fields`. -/
def AcceleratorRecord._V01_fields : List String :=
  ["MeasurementMonth", "MeasurementYear", "AssociatedRecordType",
   "AssociatedRecord", "GlobalUserName", "FQAN", "SiteName", "Count",
   "Cores", "ActiveDuration", "AvailableDuration", "BenchmarkType",
   "Benchmark", "Type", "Model"]

/-- Class attribute `AcceleratorRecord._version_field_map`. -/
def AcceleratorRecord._version_field_map : List (String × List String) :=
  [("0.1", AcceleratorRecord._V01_fields)]

/-- The constructor `AcceleratorRecord.__init__`, parameters in source
order; no attribute is validated, so construction is total. -/
def AcceleratorRecord.init
    (uuid fqan site count available_duration accelerator_type
     measurement_month measurement_year associated_record_type user_dn cores
     active_duration benchmark_type benchmark model : PyVal) : AcceleratorRecord :=
  { measurement_month := measurement_month,
    measurement_year := measurement_year,
    associated_record_type := associated_record_type,
    uuid := uuid,
    fqan := fqan,
    site := site,
    count := count,
    available_duration := available_duration,
    accelerator_type := accelerator_type,
    user_dn := user_dn,
    cores := cores,
    _active_duration := active_duration,
    benchmark_type := benchmark_type,
    benchmark := benchmark,
    model := model }

/-- Property getter for `active_duration`: the explicit value if one is
stored (`is not None`), otherwise `available_duration`. -/
def AcceleratorRecord.active_duration (r : AcceleratorRecord) : PyVal :=
  if r._active_duration ≠ PyVal.vNone then r._active_duration
  else r.available_duration

/-- Property setter for `active_duration`: stores the value unchecked. -/
def AcceleratorRecord.set_active_duration (r : AcceleratorRecord) (value : PyVal) : AcceleratorRecord :=
  { r with _active_duration := value }

/-- The `map` property of `AcceleratorRecord`, in source dict order; no
entry of it can raise. -/
def AcceleratorRecord.map (r : AcceleratorRecord) : List (String × PyVal) :=
  [("MeasurementMonth", r.measurement_month),
   ("MeasurementYear", r.measurement_year),
   ("AssociatedRecordType", r.associated_record_type),
   ("AssociatedRecord", r.uuid),
   ("GlobalUserName", r.user_dn),
   ("FQAN", r.fqan),
   ("SiteName", r.site),
   ("Count", r.count),
   ("Cores", r.cores),
   ("ActiveDuration", r.active_duration),
   ("AvailableDuration", r.available_duration),
   ("BenchmarkType", r.benchmark_type),
   ("Benchmark", r.benchmark),
   ("Type", r.accelerator_type),
   ("Model", r.model)]

/-- The method `AcceleratorRecord.as_dict(version=None)`. -/
def AcceleratorRecord.as_dict (r : AcceleratorRecord) (v : Option String) : Except PyErr (List (String × PyVal)) :=
  let version := v.getD AcceleratorRecord.version
  match List.lookup version AcceleratorRecord._version_field_map with
  | none => .error (.UnknownSchemaVersion version)
  | some fields => .ok (r.map.filter (fun kv => fields.contains kv.1))

/- ## JSON serialization (model of `json.dumps` / `json.loads`)

Both record methods `as_json` call `json.dumps(self.as_dict(...))`, and
the round-trip claim compares `json.loads` of that string with the dict.
The dicts at hand map string keys to atomic values (None, int, float,
str; `json.dumps` raises TypeError on anything it cannot serialize, for
example a datetime stored in an unvalidated attribute).  The serializer
below follows the default `json.dumps` output shape: object members
joined with a comma and a space, keys and values separated by a colon
and a space, strings quoted with backslash escapes for the quote, the
backslash and control characters, null for None, decimal integers, and
decimal scientific notation for floats (a float is written as an exact
integer-mantissa-and-exponent decimal, which represents the same value
as the shortest-repr decimal Python writes). -/

/-- Left and right curly brace characters. -/
def lbrace : Char := Char.ofNat 123

/-- Right curly brace character. -/
def rbrace : Char := Char.ofNat 125

/-- Whether a character is a decimal digit. -/
def isDig (c : Char) : Bool := 48 ≤ c.toNat && c.toNat ≤ 57

/-- The character of a decimal digit. -/
def digitChar (d : Nat) : Char := Char.ofNat (48 + d)

/-- Fueled digit extraction, most significant first; the fuel only needs
to be at least the number of digits, and is instantiated with the number
itself. -/
def natDigitsAux : Nat → Nat → List Char
  | 0, _ => []
  | _ + 1, 0 => []
  | fuel + 1, n + 1 =>
    natDigitsAux fuel ((n + 1) / 10) ++ [digitChar ((n + 1) % 10)]

/-- Decimal digit characters of a natural number, most significant
first. -/
def natDigits (n : Nat) : List Char :=
  if n = 0 then [digitChar 0] else natDigitsAux n n

/-- Decimal rendering of an integer. -/
def dumpInt (n : Int) : List Char :=
  if n < 0 then '-' :: natDigits n.natAbs else natDigits n.natAbs

/-- Lowercase hexadecimal digit character. -/
def hexDigit (d : Nat) : Char :=
  if d < 10 then Char.ofNat (48 + d) else Char.ofNat (87 + d)

/-- JSON escape of one character: quote and backslash are
backslash-escaped, control characters are written as a hexadecimal
escape, everything else stands for itself. -/
def escChar (c : Char) : List Char :=
  if c = '"' then ['\\', '"']
  else if c = '\\' then ['\\', '\\']
  else if c.toNat < 32 then
    ['\\', 'u', '0', '0', hexDigit (c.toNat / 16), hexDigit (c.toNat % 16)]
  else [c]

/-- JSON rendering of a string, quotes included. -/
def escString (s : String) : List Char :=
  '"' :: (s.data.map escChar).flatten ++ ['"']

/-- Decimal exponent used to render the float `q`: with `k = q.den`, a
Python float (a dyadic rational) always satisfies `q * 10 ^ k ∈ ℤ`, so
`q` is rendered exactly as `m * 10 ^ (-k)` with integer mantissa `m`. -/
def floatMantissa (q : Rat) : Int := (q * (10 : Rat) ^ q.den).num

/-- JSON rendering of a float as an exact mantissa-exponent decimal. -/
def dumpFloat (q : Rat) : List Char :=
  dumpInt (floatMantissa q) ++ 'e' :: '-' :: natDigits q.den

/-- JSON rendering of an atomic value; a datetime makes `json.dumps`
raise TypeError, modelled by `none`. -/
def dumpVal : PyVal → Option (List Char)
  | .vNone => some ['n', 'u', 'l', 'l']
  | .vInt n => some (dumpInt n)
  | .vFloat q => some (dumpFloat q)
  | .vStr s => some (escString s)
  | .vDatetime _ => none

/-- JSON rendering of one object member, `"key": value`. -/
def dumpMember (kv : String × PyVal) : Option (List Char) :=
  (dumpVal kv.2).map (fun v => escString kv.1 ++ ':' :: ' ' :: v)

/-- JSON rendering of the members of an object, joined with a comma and
a space. -/
def dumpMembers : List (String × PyVal) → Option (List Char)
  | [] => some []
  | kv :: rest =>
    match dumpMember kv with
    | none => none
    | some a =>
      match rest with
      | [] => some a
      | _ :: _ =>
        match dumpMembers rest with
        | none => none
        | some b => some (a ++ ',' :: ' ' :: b)

/-- Whether a float value is an exact finite decimal, the only shape an
IEEE double (and hence a Python float) can denormalize to; used as the
faithfulness hypothesis of the float round trip. -/
def floatDecadic : PyVal → Bool
  | .vFloat q => decide ((q * (10 : Rat) ^ q.den).den = 1)
  | _ => true

/-- All float values of a dict are exact finite decimals. -/
def jsonSafe (d : List (String × PyVal)) : Bool :=
  d.all (fun kv => floatDecadic kv.2)

/-- Model of `json.dumps` on a dict of atomic values. -/
def json_dumps (d : List (String × PyVal)) : Option String :=
  (dumpMembers d).map (fun ms => ⟨lbrace :: ms ++ [rbrace]⟩)

/-- The method `CloudRecord.as_json(version=None)` =
`json.dumps(self.as_dict(version))`. -/
def CloudRecord.as_json (r : CloudRecord) (v : Option String) : Except PyErr String :=
  match r.as_dict v with
  | .error e => .error e
  | .ok d =>
    match json_dumps d with
    | some s => .ok s
    | none => .error .TypeError

/-- The method `IPRecord.as_json(version=None)`. -/
def IPRecord.as_json (r : IPRecord) (v : Option String) : Except PyErr String :=
  match r.as_dict v with
  | .error e => .error e
  | .ok d =>
    match json_dumps d with
    | some s => .ok s
    | none => .error .TypeError

/-- The method `AcceleratorRecord.as_json(version=None)`. -/
def AcceleratorRecord.as_json (r : AcceleratorRecord) (v : Option String) : Except PyErr String :=
  match r.as_dict v with
  | .error e => .error e
  | .ok d =>
    match json_dumps d with
    | some s => .ok s
    | none => .error .TypeError

/-- Numeric value of a hexadecimal digit character. -/
def hexVal (c : Char) : Nat := if c.toNat ≤ 57 then c.toNat - 48 else c.toNat - 87

/-- Parser for the body of a JSON string (after the opening quote):
returns the decoded characters and the input remaining after the
closing quote. -/
def parseStrBody : List Char → Option (List Char × List Char)
  | [] => none
  | c :: rest =>
    if c = '"' then some ([], rest)
    else if c = '\\' then
      match rest with
      | [] => none
      | e :: rest2 =>
        if e = '"' then (parseStrBody rest2).map (fun p => ('"' :: p.1, p.2))
        else if e = '\\' then (parseStrBody rest2).map (fun p => ('\\' :: p.1, p.2))
        else if e = 'u' then
          match rest2 with
          | a :: b :: c2 :: d :: rest3 =>
            (parseStrBody rest3).map (fun p =>
              (Char.ofNat (((hexVal a * 16 + hexVal b) * 16 + hexVal c2) * 16
                  + hexVal d) :: p.1, p.2))
          | _ => none
        else none
    else (parseStrBody rest).map (fun p => (c :: p.1, p.2))

/-- Accumulating decimal number parser over a digit run. -/
def parseNatAcc (acc : Nat) (l : List Char) : Nat :=
  l.foldl (fun a c => 10 * a + (c.toNat - 48)) acc

/-- Digit-run parser behind `parseNum`: a digit run, then an optional
negative decimal exponent; a number without an exponent is an int, one
with an exponent is a float (the serializer writes every float with an
exponent and every int without one). -/
def parseNumCore (l1 : List Char) (neg : Bool) : Option (PyVal × List Char) :=
  let ds := l1.takeWhile isDig
  let rest := l1.dropWhile isDig
  if ds.isEmpty then none
  else
    let m : Int := (if neg then -1 else 1) * (parseNatAcc 0 ds : Int)
    match rest with
    | [] => some (.vInt m, [])
    | c1 :: t1 =>
      if c1 = 'e' then
        match t1 with
        | '-' :: r2 =>
          let ks := r2.takeWhile isDig
          let r3 := r2.dropWhile isDig
          if ks.isEmpty then none
          else some (.vFloat ((m : Rat) / (10 : Rat) ^ (parseNatAcc 0 ks)), r3)
        | _ => some (.vInt m, c1 :: t1)
      else some (.vInt m, c1 :: t1)

/-- Parser for a JSON number: an optional minus sign, then a digit run
with an optional exponent. -/
def parseNum (l : List Char) : Option (PyVal × List Char) :=
  match l with
  | [] => none
  | c0 :: t0 =>
    if c0 = '-' then parseNumCore t0 true else parseNumCore (c0 :: t0) false

/-- Parser for one JSON value of the shapes the serializer emits. -/
def parseVal (l : List Char) : Option (PyVal × List Char) :=
  match l with
  | [] => none
  | c :: t =>
    if c = 'n' then
      match t with
      | 'u' :: 'l' :: 'l' :: rest => some (.vNone, rest)
      | _ => none
    else if c = '"' then (parseStrBody t).map (fun p => (PyVal.vStr ⟨p.1⟩, p.2))
    else parseNum (c :: t)

/-- Parser for a nonempty run of JSON object members up to and including
the closing brace; the fuel bounds the number of members. -/
def parseMembers : Nat → List Char → Option (List (String × PyVal) × List Char)
  | 0, _ => none
  | fuel + 1, l =>
    match l with
    | '"' :: r1 =>
      match parseStrBody r1 with
      | none => none
      | some (k, r2) =>
        match r2 with
        | ':' :: ' ' :: r3 =>
          match parseVal r3 with
          | none => none
          | some (v, r4) =>
            match r4 with
            | x :: r5 =>
              if x = rbrace then some ([(⟨k⟩, v)], r5)
              else
                match x, r5 with
                | ',', ' ' :: r6 =>
                  (parseMembers fuel r6).map (fun p => ((⟨k⟩, v) :: p.1, p.2))
                | _, _ => none
            | [] => none
        | _ => none
    | _ => none

/-- Model of `json.loads` on the object shapes `json_dumps` emits; fails
on trailing input, as `json.loads` does. -/
def json_loads (s : String) : Option (List (String × PyVal)) :=
  match s.data with
  | [] => none
  | c :: rest =>
    if c = lbrace then
      if rest = [rbrace] then some []
      else
        match parseMembers rest.length rest with
        | some (d, []) => some d
        | _ => none
    else none

/- ## Concrete records used by witnesses and counterexamples -/

/-- The §8 concrete UsageRecord scenario: start 2021-01-01T00:00:00Z
(epoch second 1609459200), end one hour later, cpu_count 2, name with a
non-ASCII character. -/
def sampleCloudE : Except PyErr CloudRecord :=
  CloudRecord.init (.vStr "vm-1") (.vStr "SiteA") (.vStr "vm-é1")
    (.vStr "u1") (.vStr "g1") (.vStr "f1") (.vStr user_agent) .vNone .vNone
    (.vDatetime 1609459200000000) (.vDatetime 1609462800000000) .vNone
    .vNone .vNone .vNone .vNone .vNone .vNone (.vInt 2) .vNone .vNone .vNone
    .vNone .vNone .vNone .vNone .vNone .vNone .vNone

/-- The record of the §8 UsageRecord scenario. -/
def sampleCloud : CloudRecord := sampleCloudE.toOption.getD emptyCloud

/-- The §8 concrete NetworkIdentityRecord scenario. -/
def sampleIPE : Except PyErr IPRecord :=
  IPRecord.init (.vDatetime 1609459200000000) (.vStr "S") (.vStr "u")
    (.vStr "g") .vNone (.vStr "f") (.vInt 4) (.vInt 3) (.vStr user_agent)
    .vNone

/-- The record of the §8 NetworkIdentityRecord scenario. -/
def sampleIP : IPRecord := sampleIPE.toOption.getD emptyIP

/-- The §8 concrete AcceleratorRecord scenario. -/
def sampleAcc : AcceleratorRecord :=
  AcceleratorRecord.init (.vStr "vm-2") (.vStr "f") (.vStr "S") (.vInt 2)
    (.vInt 1000) (.vStr "GPU") (.vInt 6) (.vInt 2021) (.vStr "cloud")
    .vNone .vNone .vNone .vNone .vNone .vNone

/-- A record with the explicit float wall duration 0.0 (accepted by the
setter because 0.0 is falsy), used against claim C3. -/
def cloudWzero : CloudRecord :=
  (emptyCloud.set_wall_duration (.vFloat 0)).toOption.getD emptyCloud

/-- A record with explicit wall duration 3600 and cpu_count 0
(`cpu_count` is a plain attribute, set without validation), used against
claim C4. -/
def cloudC4 : CloudRecord :=
  { (emptyCloud.set_wall_duration (.vInt 3600)).toOption.getD emptyCloud with
    cpu_count := .vInt 0 }

/- ## Helper lemmas -/

/-- Every error of `startEntry` is a TypeError. -/
theorem startEntry_error (v : PyVal) (e : PyErr) (h : startEntry v = .error e) :
    e = PyErr.TypeError := by
  cases v <;> simp only [startEntry] at h <;>
    first
      | (split at h <;> simp_all)
      | simp_all

/-- Every error of `pyInt` is a TypeError. -/
theorem pyInt_error (v : PyVal) (e : PyErr) (h : pyInt v = .error e) :
    e = PyErr.TypeError := by
  cases v <;> simp_all [pyInt]

/-- Every error of `dtSubSeconds` is a TypeError. -/
theorem dtSubSeconds_error (a b : PyVal) (e : PyErr)
    (h : dtSubSeconds a b = .error e) : e = PyErr.TypeError := by
  cases a <;> cases b <;> simp_all [dtSubSeconds]

/-- Every error of `pyMul` is a TypeError. -/
theorem pyMul_error (a b : PyVal) (e : PyErr) (h : pyMul a b = .error e) :
    e = PyErr.TypeError := by
  cases a <;> cases b <;> simp_all [pyMul]

/-- Every error of `pyAndInt` is an error of its argument or a TypeError
from `int(...)`. -/
theorem pyAndInt_error (d : Except PyErr PyVal) (e : PyErr)
    (h : pyAndInt d = .error e)
    (hd : ∀ e0, d = .error e0 → e0 = PyErr.TypeError) : e = PyErr.TypeError := by
  cases d with
  | error e0 =>
    simp only [pyAndInt] at h
    injection h with h2
    exact h2 ▸ hd e0 rfl
  | ok duration =>
    simp only [pyAndInt] at h
    split at h
    · exact pyInt_error _ _ h
    · simp_all

/-- Every error of the `wall_duration` getter is a TypeError. -/
theorem wall_duration_error (r : CloudRecord) (e : PyErr)
    (h : r.wall_duration = .error e) : e = PyErr.TypeError := by
  refine pyAndInt_error _ e h ?_
  intro e0 h0
  split at h0
  · exact absurd h0 (by simp)
  · split at h0
    · exact dtSubSeconds_error _ _ _ h0
    · exact absurd h0 (by simp)

/-- Every error of the `cpu_duration` getter is a TypeError. -/
theorem cpu_duration_error (r : CloudRecord) (e : PyErr)
    (h : r.cpu_duration = .error e) : e = PyErr.TypeError := by
  refine pyAndInt_error _ e h ?_
  intro e0 h0
  split at h0
  · exact absurd h0 (by simp)
  · rcases h3 : r.wall_duration with e3 | v3 <;> rw [h3] at h0 <;>
      simp only at h0
    · injection h0 with h2
      exact h2 ▸ wall_duration_error _ _ h3
    · split at h0
      · exact pyMul_error _ _ _ h0
      · exact absurd h0 (by simp)

/-- Every error of `CloudRecord.map` is a TypeError. -/
theorem cloud_map_error (r : CloudRecord) (e : PyErr)
    (h : r.map = .error e) : e = PyErr.TypeError := by
  unfold CloudRecord.map at h
  rcases h1 : startEntry r._start_time with e1 | v1 <;> rw [h1] at h
  · simp only at h
    injection h with h2
    exact h2 ▸ startEntry_error _ _ h1
  · rcases h2 : startEntry r._end_time with e2 | v2 <;> rw [h2] at h
    · simp only at h
      injection h with hx
      exact hx ▸ startEntry_error _ _ h2
    · rcases h3 : r.wall_duration with e3 | v3 <;> rw [h3] at h
      · simp only at h
        injection h with hx
        exact hx ▸ wall_duration_error _ _ h3
      · rcases h4 : r.cpu_duration with e4 | v4 <;> rw [h4] at h
        · simp only at h
          injection h with hx
          exact hx ▸ cpu_duration_error _ _ h4
        · simp at h

/-- Every error of `IPRecord.map` is a TypeError. -/
theorem ip_map_error (r : IPRecord) (e : PyErr)
    (h : r.map = .error e) : e = PyErr.TypeError := by
  unfold IPRecord.map at h
  rcases h1 : startEntry r._measure_time with e1 | v1 <;> rw [h1] at h
  · injection h with h2
    exact h2 ▸ startEntry_error _ _ h1
  · simp at h

/-- A known CloudRecord version never yields an UnknownSchemaVersion
error (map failures are TypeErrors). -/
theorem cloud_as_dict_known (r : CloudRecord) (v : String) (fields : List String)
    (hl : List.lookup v CloudRecord._version_field_map = some fields) (w : String) :
    r.as_dict (some v) ≠ .error (.UnknownSchemaVersion w) := by
  intro hcon
  simp only [CloudRecord.as_dict, Option.getD] at hcon
  rw [hl] at hcon
  rcases hm : r.map with e | m <;> rw [hm] at hcon
  · injection hcon with hx
    have := cloud_map_error r e hm
    simp_all
  · simp at hcon

/-- A known IPRecord version never yields an UnknownSchemaVersion
error. -/
theorem ip_as_dict_known (r : IPRecord) (v : String) (fields : List String)
    (hl : List.lookup v IPRecord._version_field_map = some fields) (w : String) :
    r.as_dict (some v) ≠ .error (.UnknownSchemaVersion w) := by
  intro hcon
  simp only [IPRecord.as_dict, Option.getD] at hcon
  rw [hl] at hcon
  rcases hm : r.map with e | m <;> rw [hm] at hcon
  · injection hcon with hx
    have := ip_map_error r e hm
    simp_all
  · simp at hcon

/-- A known AcceleratorRecord version never yields an
UnknownSchemaVersion error. -/
theorem acc_as_dict_known (r : AcceleratorRecord) (v : String) (fields : List String)
    (hl : List.lookup v AcceleratorRecord._version_field_map = some fields) (w : String) :
    r.as_dict (some v) ≠ .error (.UnknownSchemaVersion w) := by
  intro hcon
  simp only [AcceleratorRecord.as_dict, Option.getD] at hcon
  rw [hl] at hcon
  simp at hcon

/-- C2: for every record type, calling as_dict or as_json with a version
string outside that type's known version set raises UnknownSchemaVersion
(modelling `exception.RecordVersionNotFound`); the known sets are
0.2/0.4 for the UsageRecord, 0.2 alone for the NetworkIdentityRecord and
0.1 alone for the AcceleratorRecord, and a known version never raises
UnknownSchemaVersion. -/
theorem spec_C2_unknown_version :
    (∀ v : String, v ≠ "0.2" → v ≠ "0.4" → ∀ r : CloudRecord,
      r.as_dict (some v) = .error (.UnknownSchemaVersion v) ∧
      r.as_json (some v) = .error (.UnknownSchemaVersion v)) ∧
    (∀ v : String, v ≠ "0.2" → ∀ r : IPRecord,
      r.as_dict (some v) = .error (.UnknownSchemaVersion v) ∧
      r.as_json (some v) = .error (.UnknownSchemaVersion v)) ∧
    (∀ v : String, v ≠ "0.1" → ∀ r : AcceleratorRecord,
      r.as_dict (some v) = .error (.UnknownSchemaVersion v) ∧
      r.as_json (some v) = .error (.UnknownSchemaVersion v)) ∧
    (∀ v w : String, (v = "0.2" ∨ v = "0.4") → ∀ r : CloudRecord,
      r.as_dict (some v) ≠ .error (.UnknownSchemaVersion w)) ∧
    (∀ w : String, ∀ r : IPRecord,
      r.as_dict (some "0.2") ≠ .error (.UnknownSchemaVersion w)) ∧
    (∀ w : String, ∀ r : AcceleratorRecord,
      r.as_dict (some "0.1") ≠ .error (.UnknownSchemaVersion w)) := by
  refine ⟨?_, ?_, ?_, ?_, ?_, ?_⟩
  · intro v h2 h4 r
    have hb2 : (v == "0.2") = false := by simp [h2]
    have hb4 : (v == "0.4") = false := by simp [h4]
    constructor
    · simp [CloudRecord.as_dict, CloudRecord._version_field_map, List.lookup,
            hb2, hb4]
    · simp [CloudRecord.as_json, CloudRecord.as_dict,
            CloudRecord._version_field_map, List.lookup, hb2, hb4]
  · intro v h2 r
    have hb2 : (v == "0.2") = false := by simp [h2]
    constructor
    · simp [IPRecord.as_dict, IPRecord._version_field_map, List.lookup, hb2]
    · simp [IPRecord.as_json, IPRecord.as_dict, IPRecord._version_field_map,
            List.lookup, hb2]
  · intro v h1 r
    have hb1 : (v == "0.1") = false := by simp [h1]
    constructor
    · simp [AcceleratorRecord.as_dict, AcceleratorRecord._version_field_map,
            List.lookup, hb1]
    · simp [AcceleratorRecord.as_json, AcceleratorRecord.as_dict,
            AcceleratorRecord._version_field_map, List.lookup, hb1]
  · intro v w hv r
    rcases hv with rfl | rfl
    · exact cloud_as_dict_known r "0.2" CloudRecord._v02_fields rfl w
    · exact cloud_as_dict_known r "0.4" CloudRecord._v04_fields rfl w
  · intro w r
    exact ip_as_dict_known r "0.2" IPRecord._V02_fields rfl w
  · intro w r
    exact acc_as_dict_known r "0.1" AcceleratorRecord._V01_fields rfl w

/-- Witness for C2 at the concrete unknown version string "0.3" and the
concrete records of the §8 scenarios. -/
theorem spec_C2_witness :
    sampleCloud.as_dict (some "0.3") = .error (.UnknownSchemaVersion "0.3") ∧
    sampleIP.as_json (some "0.3") = .error (.UnknownSchemaVersion "0.3") ∧
    sampleAcc.as_dict (some "0.3") = .error (.UnknownSchemaVersion "0.3") ∧
    sampleCloud.as_dict (some "0.4") ≠ .error (.UnknownSchemaVersion "0.4") :=
  ⟨(spec_C2_unknown_version.1 "0.3" (by decide) (by decide) sampleCloud).1,
   (spec_C2_unknown_version.2.1 "0.3" (by decide) sampleIP).2,
   (spec_C2_unknown_version.2.2.1 "0.3" (by decide) sampleAcc).1,
   spec_C2_unknown_version.2.2.2.1 "0.4" "0.4" (Or.inr rfl) sampleCloud⟩

/-- Destructor for a successful `CloudRecord.map`: the four fallible
entries succeeded and the dict is the source's literal, in insertion
order. -/
theorem cloud_map_ok (r : CloudRecord) (m : List (String × PyVal)) (h : r.map = .ok m) :
    ∃ st et wd cd, startEntry r._start_time = Except.ok st ∧
      startEntry r._end_time = Except.ok et ∧
      r.wall_duration = Except.ok wd ∧ r.cpu_duration = Except.ok cd ∧
      m = [("VMUUID", r.uuid), ("SiteName", r.site), ("MachineName", r._name),
           ("LocalUserId", r.user_id), ("LocalGroupId", r.group_id),
           ("FQAN", r.fqan), ("Status", r.status), ("StartTime", st),
           ("EndTime", et), ("SuspendDuration", r.suspend_duration),
           ("WallDuration", wd), ("CpuDuration", cd),
           ("CpuCount", r.cpu_count), ("NetworkType", r.network_type),
           ("NetworkInbound", r.network_in), ("NetworkOutbound", r.network_out),
           ("Memory", r.memory), ("Disk", r.disk),
           ("StorageRecordId", r.storage_record_id), ("ImageId", r.image_id),
           ("CloudType", r.cloud_type), ("GlobalUserName", r.user_dn),
           ("PublicIPCount", r.public_ip_count), ("Benchmark", r.benchmark_value),
           ("BenchmarkType", r.benchmark_type),
           ("CloudComputeService", r.compute_service)] := by
  unfold CloudRecord.map at h
  rcases h1 : startEntry r._start_time with e1 | st
  · rw [h1] at h; simp only at h; exact Except.noConfusion h
  · rw [h1] at h
    rcases h2 : startEntry r._end_time with e2 | et
    · rw [h2] at h; simp only at h; exact Except.noConfusion h
    · rw [h2] at h
      rcases h3 : r.wall_duration with e3 | wd
      · rw [h3] at h; simp only at h; exact Except.noConfusion h
      · rw [h3] at h
        rcases h4 : r.cpu_duration with e4 | cd
        · rw [h4] at h; simp only at h; exact Except.noConfusion h
        · rw [h4] at h; simp only at h
          refine ⟨st, et, wd, cd, rfl, rfl, rfl, rfl, ?_⟩
          injection h with h5
          exact h5.symm

/-- Destructor for a successful `IPRecord.map`. -/
theorem ip_map_ok (r : IPRecord) (m : List (String × PyVal)) (h : r.map = .ok m) :
    ∃ mt, startEntry r._measure_time = Except.ok mt ∧
      m = [("MeasurementTime", mt), ("SiteName", r.site),
           ("CloudType", r.cloud_type), ("LocalUser", r.user_id),
           ("LocalGroup", r.group_id), ("FQAN", r.fqan),
           ("GlobalUserName", r.user_dn), ("IPVersion", r.ip_version),
           ("IPCount", r.public_ip_count),
           ("CloudComputeService", r.compute_service)] := by
  unfold IPRecord.map at h
  rcases h1 : startEntry r._measure_time with e1 | mt
  · rw [h1] at h; simp only at h; exact Except.noConfusion h
  · rw [h1] at h; simp only at h
    refine ⟨mt, rfl, ?_⟩
    injection h with h5
    exact h5.symm

/-- C5 (amended): assigning a truthy non-numeric value to wall or cpu
duration raises InvalidValue (ValueError), assigning a truthy
non-datetime value to start or end time raises InvalidValue, and every
setter either raises that error, storing nothing, or stores exactly the
assigned value; falsy values of any type (None, 0, empty string) are
stored without validation. -/
theorem spec_C5_setter_validation :
    (∀ (r : CloudRecord) (v : PyVal), v.truthy = true → v.isNumber = false →
      r.set_wall_duration v = .error (.InvalidValue "Duration must be a number") ∧
      r.set_cpu_duration v = .error (.InvalidValue "Duration must be a number")) ∧
    (∀ (r : CloudRecord) (v : PyVal), v.truthy = true → v.isDatetime = false →
      r.set_start_time v =
        .error (.InvalidValue "Dates must be datetime.datetime objects") ∧
      r.set_end_time v =
        .error (.InvalidValue "Dates must be datetime.datetime objects")) ∧
    (∀ (r : CloudRecord) (v : PyVal),
      r.set_wall_duration v = .error (.InvalidValue "Duration must be a number") ∨
      r.set_wall_duration v = .ok { r with _wall_duration := v }) ∧
    (∀ (r : CloudRecord) (v : PyVal),
      r.set_cpu_duration v = .error (.InvalidValue "Duration must be a number") ∨
      r.set_cpu_duration v = .ok { r with _cpu_duration := v }) ∧
    (∀ (r : CloudRecord) (v : PyVal),
      r.set_start_time v =
        .error (.InvalidValue "Dates must be datetime.datetime objects") ∨
      r.set_start_time v = .ok { r with _start_time := v }) ∧
    (∀ (r : CloudRecord) (v : PyVal),
      r.set_end_time v =
        .error (.InvalidValue "Dates must be datetime.datetime objects") ∨
      r.set_end_time v = .ok { r with _end_time := v }) := by
  refine ⟨?_, ?_, ?_, ?_, ?_, ?_⟩ <;> intro r v
  · intro ht hn
    constructor <;>
      simp [CloudRecord.set_wall_duration, CloudRecord.set_cpu_duration, ht, hn]
  · intro ht hn
    constructor <;>
      simp [CloudRecord.set_start_time, CloudRecord.set_end_time, ht, hn]
  · by_cases hc : (v.truthy && !v.isNumber) = true
    · exact Or.inl (by simp [CloudRecord.set_wall_duration, hc])
    · exact Or.inr (by simp [CloudRecord.set_wall_duration, hc])
  · by_cases hc : (v.truthy && !v.isNumber) = true
    · exact Or.inl (by simp [CloudRecord.set_cpu_duration, hc])
    · exact Or.inr (by simp [CloudRecord.set_cpu_duration, hc])
  · by_cases hc : (v.truthy && !v.isDatetime) = true
    · exact Or.inl (by simp [CloudRecord.set_start_time, hc])
    · exact Or.inr (by simp [CloudRecord.set_start_time, hc])
  · by_cases hc : (v.truthy && !v.isDatetime) = true
    · exact Or.inl (by simp [CloudRecord.set_end_time, hc])
    · exact Or.inr (by simp [CloudRecord.set_end_time, hc])

/-- Counterexample to C5 as stated: the empty string is a non-numeric
value, yet assigning it to wall_duration does not raise InvalidValue —
it is falsy, so the setter stores it. -/
theorem spec_C5_counterexample :
    (PyVal.vStr "").isNumber = false ∧
    emptyCloud.set_wall_duration (.vStr "") =
      .ok { emptyCloud with _wall_duration := .vStr "" } := by
  exact ⟨rfl, rfl⟩

/-- Witness for C5 at concrete truthy invalid values. -/
theorem spec_C5_witness :
    (PyVal.vStr "x").truthy = true ∧ (PyVal.vStr "x").isNumber = false ∧
    emptyCloud.set_wall_duration (.vStr "x") =
      .error (.InvalidValue "Duration must be a number") ∧
    emptyCloud.set_start_time (.vInt 5) =
      .error (.InvalidValue "Dates must be datetime.datetime objects") :=
  ⟨rfl, rfl,
   (spec_C5_setter_validation.1 emptyCloud (.vStr "x") rfl rfl).1,
   (spec_C5_setter_validation.2.1 emptyCloud (.vInt 5) rfl rfl).1⟩

/-- C7: assigning any string as the record name always succeeds and
stores the input with its non-ASCII characters dropped; the mapping
emits that stored string as MachineName; in particular the §8 name with
an accented letter is stored as its ASCII projection. -/
theorem spec_C7_name_ascii :
    (∀ (r : CloudRecord) (s : String),
      r.set_name (.vStr s) = .ok { r with _name := .vStr (asciiIgnore s) }) ∧
    (∀ (r r2 : CloudRecord) (s : String) (m : List (String × PyVal)),
      r.set_name (.vStr s) = .ok r2 → r2.map = .ok m →
      List.lookup "MachineName" m = some (.vStr (asciiIgnore s))) ∧
    asciiIgnore "vm-é1" = "vm-1" := by
  refine ⟨fun r s => rfl, ?_, by decide⟩
  intro r r2 s m hset hm
  have h2 : r2 = { r with _name := .vStr (asciiIgnore s) } := by
    injection hset with hx
    exact hx.symm
  subst h2
  obtain ⟨st, et, wd, cd, _, _, _, _, hmeq⟩ := cloud_map_ok _ m hm
  subst hmeq
  rfl

/-- Witness for C7 at the §8 record and name. -/
theorem spec_C7_witness :
    List.lookup "MachineName" ((sampleCloud.map).toOption.getD [])
      = some (.vStr (asciiIgnore "vm-é1")) :=
  spec_C7_name_ascii.2.1 sampleCloud sampleCloud "vm-é1"
    ((sampleCloud.map).toOption.getD []) (by decide) (by decide)

/-- C8: with no explicit active duration stored, the accelerator getter
returns available_duration — in particular a record constructed with
active_duration None reads back its available duration, and the §8
record's dict carries ActiveDuration 1000; after storing an explicit
duration value X, every subsequent read returns X (the getter treats
None as the "unset" sentinel). -/
theorem spec_C8_active_duration :
    (∀ r : AcceleratorRecord, r._active_duration = .vNone →
      r.active_duration = r.available_duration) ∧
    (∀ uuid fqan site count avail acc_t mm my art udn cores bt b mo : PyVal,
      (AcceleratorRecord.init uuid fqan site count avail acc_t mm my art udn
        cores .vNone bt b mo).active_duration = avail) ∧
    (∀ (r : AcceleratorRecord) (x : PyVal), x ≠ .vNone →
      (r.set_active_duration x).active_duration = x) ∧
    List.lookup "ActiveDuration" ((sampleAcc.as_dict none).toOption.getD [])
      = some (.vInt 1000) := by
  refine ⟨?_, ?_, ?_, by rfl⟩
  · intro r h
    simp [AcceleratorRecord.active_duration, h]
  · intro uuid fqan site count avail acc_t mm my art udn cores bt b mo
    rfl
  · intro r x hx
    simp [AcceleratorRecord.set_active_duration,
          AcceleratorRecord.active_duration, hx]

/-- Witness for C8 at the §8 accelerator record. -/
theorem spec_C8_witness :
    sampleAcc.active_duration = sampleAcc.available_duration ∧
    (sampleAcc.set_active_duration (.vInt 5)).active_duration = .vInt 5 :=
  ⟨spec_C8_active_duration.1 sampleAcc rfl,
   spec_C8_active_duration.2.2.1 sampleAcc (.vInt 5) (by decide)⟩

/-- C10: both duration getters dispatch on `is not None`, so an explicit
stored zero (int 0 or float 0.0) suppresses derivation and is returned
as stored, and the trailing `duration and int(duration)` applies
`int(...)` only to nonzero values — a zero-length start/end window
yields the float 0.0, not the integer 0, while a nonzero explicit float
is truncated to an int and a stored int is returned unchanged. -/
theorem spec_C10_zero_durations :
    (∀ r : CloudRecord, r._wall_duration = .vInt 0 →
      r.wall_duration = .ok (.vInt 0)) ∧
    (∀ r : CloudRecord, r._wall_duration = .vFloat 0 →
      r.wall_duration = .ok (.vFloat 0)) ∧
    (∀ r : CloudRecord, r._cpu_duration = .vInt 0 →
      r.cpu_duration = .ok (.vInt 0)) ∧
    (∀ r : CloudRecord, r._cpu_duration = .vFloat 0 →
      r.cpu_duration = .ok (.vFloat 0)) ∧
    (∀ (r : CloudRecord) (t : Int), r._wall_duration = .vNone →
      r._start_time = .vDatetime t → r._end_time = .vDatetime t →
      r.wall_duration = .ok (.vFloat 0)) ∧
    (∀ (r : CloudRecord) (q : Rat), r._wall_duration = .vFloat q → q ≠ 0 →
      r.wall_duration = .ok (.vInt (ratTrunc q))) ∧
    (∀ (r : CloudRecord) (n : Int), r._wall_duration = .vInt n →
      r.wall_duration = .ok (.vInt n)) := by
  refine ⟨?_, ?_, ?_, ?_, ?_, ?_, ?_⟩
  · intro r h
    simp [CloudRecord.wall_duration, pyAndInt, PyVal.truthy, h]
  · intro r h
    simp [CloudRecord.wall_duration, pyAndInt, PyVal.truthy, h]
  · intro r h
    simp [CloudRecord.cpu_duration, pyAndInt, PyVal.truthy, h]
  · intro r h
    simp [CloudRecord.cpu_duration, pyAndInt, PyVal.truthy, h]
  · intro r t h hs he
    simp [CloudRecord.wall_duration, pyAndInt, PyVal.truthy, dtSubSeconds,
          h, hs, he]
  · intro r q h hq
    simp [CloudRecord.wall_duration, pyAndInt, PyVal.truthy, pyInt, h, hq]
  · intro r n h
    by_cases hn : n = 0
    · subst hn
      simp [CloudRecord.wall_duration, pyAndInt, PyVal.truthy, h]
    · simp [CloudRecord.wall_duration, pyAndInt, PyVal.truthy, pyInt,
            ratTrunc, h, hn]

/-- Witness for C10: the record with explicit wall duration 0.0 returns
the float 0.0, and a zero-length window also returns the float 0.0. -/
theorem spec_C10_witness :
    cloudWzero.wall_duration = Except.ok (PyVal.vFloat 0) ∧
    ({ emptyCloud with _start_time := PyVal.vDatetime 1609459200000000, _end_time := PyVal.vDatetime 1609459200000000 } : CloudRecord).wall_duration
      = Except.ok (PyVal.vFloat 0) :=
  ⟨spec_C10_zero_durations.2.1 cloudWzero rfl,
   spec_C10_zero_durations.2.2.2.2.1 _ 1609459200000000 rfl rfl rfl⟩

/-- Truncation of an integer-valued rational is the integer itself. -/
theorem ratTrunc_intCast (n : Int) : ratTrunc ((n : Rat)) = n := by
  simp [ratTrunc, Rat.num_intCast, Rat.den_intCast]

/-- The wall duration getter on a record with no explicit value and both
timestamps present reduces to the subtraction branch. -/
theorem wall_derive (r : CloudRecord) (s e : Int) (hw : r._wall_duration = .vNone)
    (hs : r._start_time = .vDatetime s) (he : r._end_time = .vDatetime e) :
    r.wall_duration = pyAndInt (.ok (.vFloat (((e - s : Int) : Rat) / 1000000))) := by
  simp [CloudRecord.wall_duration, hw, hs, he, dtSubSeconds]

/-- C3 (amended): with no explicit wall duration and both timestamps
present, the getter's result is numerically the whole-second difference
N whenever the window is exactly N seconds; with a missing timestamp and
no explicit value it is None; an explicit int W is returned unchanged
and an explicit nonzero float W is truncated to an int, while the
explicit float 0.0 is returned as stored — unconverted, though still
numerically zero. -/
theorem spec_C3_wall_duration :
    (∀ (r : CloudRecord) (t N : Int), r._wall_duration = .vNone →
      r._start_time = .vDatetime t →
      r._end_time = .vDatetime (t + N * 1000000) →
      pyNumEqE r.wall_duration ((N : Rat)) = true) ∧
    (∀ r : CloudRecord, r._wall_duration = .vNone →
      (r._start_time = .vNone ∨ r._end_time = .vNone) →
      r.wall_duration = .ok .vNone) ∧
    (∀ (r : CloudRecord) (n : Int), r._wall_duration = .vInt n →
      r.wall_duration = .ok (.vInt n)) ∧
    (∀ (r : CloudRecord) (q : Rat), r._wall_duration = .vFloat q → q ≠ 0 →
      r.wall_duration = .ok (.vInt (ratTrunc q))) ∧
    (∀ r : CloudRecord, r._wall_duration = .vFloat 0 →
      r.wall_duration = .ok (.vFloat 0)) := by
  refine ⟨?_, ?_, ?_, ?_, ?_⟩
  · intro r t N hw hs he
    have h1 := wall_derive r t (t + N * 1000000) hw hs he
    rw [show (t + N * 1000000 - t : Int) = N * 1000000 from by ring] at h1
    rw [show (((N * 1000000 : Int) : Rat) / 1000000) = (N : Rat) from by
      push_cast
      rw [mul_div_assoc]
      norm_num] at h1
    by_cases hN : N = 0
    · subst hN
      simp only [Int.cast_zero] at h1
      simp [h1, pyAndInt, PyVal.truthy, pyNumEqE, PyVal.numEq]
    · have hq : ((N : Rat)) ≠ 0 := Int.cast_ne_zero.mpr hN
      simp [h1, pyAndInt, PyVal.truthy, pyInt, pyNumEqE, PyVal.numEq,
            ratTrunc_intCast, hq]
  · intro r hw hd
    have hcond : ¬(r._start_time ≠ PyVal.vNone ∧ r._end_time ≠ PyVal.vNone) := by
      rcases hd with h1 | h1 <;> simp [h1]
    simp [CloudRecord.wall_duration, hw, hcond, pyAndInt, PyVal.truthy]
  · intro r n h
    by_cases hn : n = 0
    · subst hn
      simp [CloudRecord.wall_duration, pyAndInt, PyVal.truthy, h]
    · simp [CloudRecord.wall_duration, pyAndInt, PyVal.truthy, pyInt, h, hn]
  · intro r q h hq
    simp [CloudRecord.wall_duration, pyAndInt, PyVal.truthy, pyInt, h, hq]
  · intro r h
    simp [CloudRecord.wall_duration, pyAndInt, PyVal.truthy, h]

/-- Counterexample to C3 as stated: the explicit wall duration 0.0 is a
numeric value, yet the getter returns the stored float 0.0 itself, not
an int. -/
theorem spec_C3_counterexample :
    cloudWzero._wall_duration = PyVal.vFloat 0 ∧
    (PyVal.vFloat 0).isNumber = true ∧
    cloudWzero.wall_duration = Except.ok (PyVal.vFloat 0) ∧
    (PyVal.vFloat 0).isIntVal = false := by decide

/-- Witness for C3 on the §8 one-hour window and on a record missing its
end time. -/
theorem spec_C3_witness :
    pyNumEqE (({ emptyCloud with _start_time := PyVal.vDatetime 1609459200000000, _end_time := PyVal.vDatetime 1609462800000000 } : CloudRecord).wall_duration) ((3600 : Int) : Rat) = true ∧
    ({ emptyCloud with _start_time := PyVal.vDatetime 1609459200000000 } : CloudRecord).wall_duration = Except.ok PyVal.vNone :=
  ⟨spec_C3_wall_duration.1 _ 1609459200000000 3600 rfl rfl (by decide),
   spec_C3_wall_duration.2.1 _ rfl (Or.inr rfl)⟩

/-- C4 (amended): with no explicit cpu duration, an explicit integer
wall duration W and a nonzero integer cpu_count C, the cpu duration is
numerically W * C; it is None when no explicit cpu duration is stored
and the wall duration reads None or cpu_count is None or 0 (zero is
falsy, so the derivation is skipped rather than producing 0); an
explicit stored int is returned unchanged. -/
theorem spec_C4_cpu_duration :
    (∀ (r : CloudRecord) (w c : Int), r._cpu_duration = .vNone →
      r._wall_duration = .vInt w → r.cpu_count = .vInt c → c ≠ 0 →
      pyNumEqE r.cpu_duration (((w * c : Int) : Rat)) = true) ∧
    (∀ (r : CloudRecord) (wv : PyVal), r._cpu_duration = .vNone →
      r.wall_duration = .ok wv →
      (wv = .vNone ∨ r.cpu_count = .vNone ∨ r.cpu_count = .vInt 0) →
      r.cpu_duration = .ok .vNone) ∧
    (∀ (r : CloudRecord) (n : Int), r._cpu_duration = .vInt n →
      r.cpu_duration = .ok (.vInt n)) := by
  refine ⟨?_, ?_, ?_⟩
  · intro r w c hc hw hcc hcz
    have hwall : r.wall_duration = .ok (.vInt w) := by
      by_cases hn : w = 0
      · subst hn
        simp [CloudRecord.wall_duration, pyAndInt, PyVal.truthy, hw]
      · simp [CloudRecord.wall_duration, pyAndInt, PyVal.truthy, pyInt, hw, hn]
    by_cases hwz : w = 0
    · subst hwz
      simp [CloudRecord.cpu_duration, hc, hwall, hcc, PyVal.truthy, hcz,
            pyMul, pyAndInt, pyNumEqE, PyVal.numEq]
    · have hwc : w * c ≠ 0 := mul_ne_zero hwz hcz
      simp [CloudRecord.cpu_duration, hc, hwall, hcc, PyVal.truthy, hcz,
            pyMul, pyAndInt, pyInt, pyNumEqE, PyVal.numEq, hwc]
  · intro r wv hc hw hd
    rcases hd with h1 | h1 | h1 <;>
      simp [CloudRecord.cpu_duration, hc, hw, h1, pyAndInt, PyVal.truthy]
  · intro r n h
    by_cases hn : n = 0
    · subst hn
      simp [CloudRecord.cpu_duration, pyAndInt, PyVal.truthy, h]
    · simp [CloudRecord.cpu_duration, pyAndInt, PyVal.truthy, pyInt, h, hn]

/-- Counterexample to C4 as stated: explicit wall duration 3600, cpu
count 0 and no explicit cpu duration give a None cpu duration, while the
claim demands W * C = 0. -/
theorem spec_C4_counterexample :
    cloudC4._cpu_duration = PyVal.vNone ∧
    cloudC4._wall_duration = PyVal.vInt 3600 ∧
    cloudC4.cpu_count = PyVal.vInt 0 ∧
    cloudC4.cpu_duration = Except.ok PyVal.vNone ∧
    PyVal.numEq PyVal.vNone (((3600 * 0 : Int) : Rat)) = false := by decide

/-- Witness for C4 with wall 3600 and cpu_count 2 (product 7200), and
for the None case on the empty record. -/
theorem spec_C4_witness :
    pyNumEqE (({ emptyCloud with _wall_duration := PyVal.vInt 3600, cpu_count := PyVal.vInt 2 } : CloudRecord).cpu_duration) (((3600 * 2 : Int) : Rat)) = true ∧
    emptyCloud.cpu_duration = Except.ok PyVal.vNone :=
  ⟨spec_C4_cpu_duration.1 _ 3600 2 rfl rfl rfl (by decide),
   spec_C4_cpu_duration.2.1 emptyCloud PyVal.vNone rfl (by decide) (Or.inl rfl)⟩

/-- C6: timestamp attributes are emitted in the output mapping as the
integer epoch second of the datetime (via the platform strftime, modelled
as UTC), and as None when unset, for the UsageRecord start and end times
and the NetworkIdentityRecord measurement time; in the §8 scenario with
start time 2021-01-01T00:00:00Z the emitted StartTime is the integer
1609459200. -/
theorem spec_C6_epoch_timestamps :
    (∀ (r : CloudRecord) (us : Int) (m : List (String × PyVal)),
      r._start_time = .vDatetime us → r.map = .ok m →
      List.lookup "StartTime" m = some (.vInt (strftimeEpoch us))) ∧
    (∀ (r : CloudRecord) (us : Int) (m : List (String × PyVal)),
      r._end_time = .vDatetime us → r.map = .ok m →
      List.lookup "EndTime" m = some (.vInt (strftimeEpoch us))) ∧
    (∀ (r : CloudRecord) (m : List (String × PyVal)),
      r._start_time = .vNone → r.map = .ok m →
      List.lookup "StartTime" m = some .vNone) ∧
    (∀ (r : CloudRecord) (m : List (String × PyVal)),
      r._end_time = .vNone → r.map = .ok m →
      List.lookup "EndTime" m = some .vNone) ∧
    (∀ (r : IPRecord) (us : Int) (m : List (String × PyVal)),
      r._measure_time = .vDatetime us → r.map = .ok m →
      List.lookup "MeasurementTime" m = some (.vInt (strftimeEpoch us))) ∧
    (∀ (r : IPRecord) (m : List (String × PyVal)),
      r._measure_time = .vNone → r.map = .ok m →
      List.lookup "MeasurementTime" m = some .vNone) ∧
    List.lookup "StartTime" ((sampleCloud.map).toOption.getD [])
      = some (.vInt 1609459200) := by
  refine ⟨?_, ?_, ?_, ?_, ?_, ?_, by decide⟩
  · intro r us m hs hm
    obtain ⟨st, et, wd, cd, h1, h2, h3, h4, hmeq⟩ := cloud_map_ok r m hm
    subst hmeq
    rw [hs] at h1
    simp only [startEntry, Except.ok.injEq] at h1
    subst h1
    rfl
  · intro r us m hs hm
    obtain ⟨st, et, wd, cd, h1, h2, h3, h4, hmeq⟩ := cloud_map_ok r m hm
    subst hmeq
    rw [hs] at h2
    simp only [startEntry, Except.ok.injEq] at h2
    subst h2
    rfl
  · intro r m hs hm
    obtain ⟨st, et, wd, cd, h1, h2, h3, h4, hmeq⟩ := cloud_map_ok r m hm
    subst hmeq
    rw [hs] at h1
    simp [startEntry, PyVal.truthy] at h1
    subst h1
    rfl
  · intro r m hs hm
    obtain ⟨st, et, wd, cd, h1, h2, h3, h4, hmeq⟩ := cloud_map_ok r m hm
    subst hmeq
    rw [hs] at h2
    simp [startEntry, PyVal.truthy] at h2
    subst h2
    rfl
  · intro r us m hs hm
    obtain ⟨mt, h1, hmeq⟩ := ip_map_ok r m hm
    subst hmeq
    rw [hs] at h1
    simp only [startEntry, Except.ok.injEq] at h1
    subst h1
    rfl
  · intro r m hs hm
    obtain ⟨mt, h1, hmeq⟩ := ip_map_ok r m hm
    subst hmeq
    rw [hs] at h1
    simp [startEntry, PyVal.truthy] at h1
    subst h1
    rfl

/-- Witness for C6 at the §8 measurement time. -/
theorem spec_C6_witness :
    List.lookup "MeasurementTime" ((sampleIP.map).toOption.getD [])
      = some (.vInt (strftimeEpoch 1609459200000000)) :=
  spec_C6_epoch_timestamps.2.2.2.2.1 sampleIP 1609459200000000
    ((sampleIP.map).toOption.getD []) (by decide) (by decide)

/-- Keys of a filtered dict: filtering on the key commutes with taking
the key list. -/
theorem keys_filter (l : List (String × PyVal)) (p : String → Bool) :
    (l.filter (fun kv => p kv.1)).map Prod.fst = (l.map Prod.fst).filter p := by
  induction l with
  | nil => rfl
  | cons kv t ih =>
    by_cases hp : p kv.1 = true <;> simp [List.filter, hp, ih]

/-- Destructor for a successful `CloudRecord.as_dict` with a known
version: the dict is the filtered map. -/
theorem cloud_as_dict_ok (r : CloudRecord) (v : String) (fields : List String)
    (hl : List.lookup v CloudRecord._version_field_map = some fields)
    (d : List (String × PyVal)) (h : r.as_dict (some v) = .ok d) :
    ∃ m, r.map = .ok m ∧ d = m.filter (fun kv => fields.contains kv.1) := by
  simp only [CloudRecord.as_dict, Option.getD] at h
  rw [hl] at h
  rcases hm : r.map with e | m <;> rw [hm] at h <;> simp only at h
  · exact Except.noConfusion h
  · refine ⟨m, rfl, ?_⟩
    injection h with h2
    exact h2.symm

/-- Destructor for a successful `IPRecord.as_dict` with a known
version. -/
theorem ip_as_dict_ok (r : IPRecord) (v : String) (fields : List String)
    (hl : List.lookup v IPRecord._version_field_map = some fields)
    (d : List (String × PyVal)) (h : r.as_dict (some v) = .ok d) :
    ∃ m, r.map = .ok m ∧ d = m.filter (fun kv => fields.contains kv.1) := by
  simp only [IPRecord.as_dict, Option.getD] at h
  rw [hl] at h
  rcases hm : r.map with e | m <;> rw [hm] at h <;> simp only at h
  · exact Except.noConfusion h
  · refine ⟨m, rfl, ?_⟩
    injection h with h2
    exact h2.symm

/-- Destructor for a successful `AcceleratorRecord.as_dict` with a known
version. -/
theorem acc_as_dict_ok (r : AcceleratorRecord) (v : String) (fields : List String)
    (hl : List.lookup v AcceleratorRecord._version_field_map = some fields)
    (d : List (String × PyVal)) (h : r.as_dict (some v) = .ok d) :
    d = r.map.filter (fun kv => fields.contains kv.1) := by
  simp only [AcceleratorRecord.as_dict, Option.getD] at h
  rw [hl] at h
  injection h with h2
  exact h2.symm

/-- The key list of a successful `CloudRecord.as_dict` is the map's
fixed key list filtered to the version's fields. -/
theorem cloud_as_dict_keys (r : CloudRecord) (v : String) (fields : List String)
    (hl : List.lookup v CloudRecord._version_field_map = some fields)
    (d : List (String × PyVal)) (h : r.as_dict (some v) = .ok d) :
    d.map Prod.fst =
      (["VMUUID", "SiteName", "MachineName", "LocalUserId", "LocalGroupId",
        "FQAN", "Status", "StartTime", "EndTime", "SuspendDuration",
        "WallDuration", "CpuDuration", "CpuCount", "NetworkType",
        "NetworkInbound", "NetworkOutbound", "Memory", "Disk",
        "StorageRecordId", "ImageId", "CloudType", "GlobalUserName",
        "PublicIPCount", "Benchmark", "BenchmarkType",
        "CloudComputeService"]).filter (fun k => fields.contains k) := by
  obtain ⟨m, hm, hd⟩ := cloud_as_dict_ok r v fields hl d h
  obtain ⟨st, et, wd, cd, _, _, _, _, hmeq⟩ := cloud_map_ok r m hm
  subst hd
  subst hmeq
  rw [keys_filter]
  rfl

/-- The key list of a successful `IPRecord.as_dict` is the map's fixed
key list filtered to the version's fields. -/
theorem ip_as_dict_keys (r : IPRecord) (v : String) (fields : List String)
    (hl : List.lookup v IPRecord._version_field_map = some fields)
    (d : List (String × PyVal)) (h : r.as_dict (some v) = .ok d) :
    d.map Prod.fst =
      (["MeasurementTime", "SiteName", "CloudType", "LocalUser",
        "LocalGroup", "FQAN", "GlobalUserName", "IPVersion", "IPCount",
        "CloudComputeService"]).filter (fun k => fields.contains k) := by
  obtain ⟨m, hm, hd⟩ := ip_as_dict_ok r v fields hl d h
  obtain ⟨mt, _, hmeq⟩ := ip_map_ok r m hm
  subst hd
  subst hmeq
  rw [keys_filter]
  rfl

/-- The key list of a successful `AcceleratorRecord.as_dict` is the
map's fixed key list filtered to the version's fields. -/
theorem acc_as_dict_keys (r : AcceleratorRecord) (v : String) (fields : List String)
    (hl : List.lookup v AcceleratorRecord._version_field_map = some fields)
    (d : List (String × PyVal)) (h : r.as_dict (some v) = .ok d) :
    d.map Prod.fst =
      (["MeasurementMonth", "MeasurementYear", "AssociatedRecordType",
        "AssociatedRecord", "GlobalUserName", "FQAN", "SiteName", "Count",
        "Cores", "ActiveDuration", "AvailableDuration", "BenchmarkType",
        "Benchmark", "Type", "Model"]).filter (fun k => fields.contains k) := by
  have hd := acc_as_dict_ok r v fields hl d h
  subst hd
  rw [keys_filter]
  rfl

/-- C1: for every record and supported version the key set of as_dict is
exactly the declared field list of that version; with no version
argument as_dict uses the record's default (highest) version; and the
0.2 UsageRecord field list is a strict subset of the 0.4 one, missing
exactly the compute-service, benchmark (value and type) and
public-IP-count fields. -/
theorem spec_C1_version_field_sets :
    (∀ r : CloudRecord, r.as_dict none = r.as_dict (some "0.4")) ∧
    (∀ (r : CloudRecord) (d : List (String × PyVal)),
      r.as_dict (some "0.4") = .ok d →
      List.Perm (d.map Prod.fst) CloudRecord._v04_fields) ∧
    (∀ (r : CloudRecord) (d : List (String × PyVal)),
      r.as_dict (some "0.2") = .ok d →
      List.Perm (d.map Prod.fst) CloudRecord._v02_fields) ∧
    (∀ r : IPRecord, r.as_dict none = r.as_dict (some "0.2")) ∧
    (∀ (r : IPRecord) (d : List (String × PyVal)),
      r.as_dict (some "0.2") = .ok d →
      List.Perm (d.map Prod.fst) IPRecord._V02_fields) ∧
    (∀ r : AcceleratorRecord, r.as_dict none = r.as_dict (some "0.1")) ∧
    (∀ (r : AcceleratorRecord) (d : List (String × PyVal)),
      r.as_dict (some "0.1") = .ok d →
      List.Perm (d.map Prod.fst) AcceleratorRecord._V01_fields) ∧
    (List.Perm CloudRecord._v04_fields
      (CloudRecord._v02_fields ++
        ["CloudComputeService", "BenchmarkType", "Benchmark",
         "PublicIPCount"]) ∧
     ∀ x ∈ (["CloudComputeService", "BenchmarkType", "Benchmark",
             "PublicIPCount"] : List String),
       x ∉ CloudRecord._v02_fields) := by
  refine ⟨fun r => rfl, ?_, ?_, fun r => rfl, ?_, fun r => rfl, ?_, by decide,
          by decide⟩
  · intro r d h
    rw [cloud_as_dict_keys r "0.4" CloudRecord._v04_fields rfl d h]
    decide
  · intro r d h
    rw [cloud_as_dict_keys r "0.2" CloudRecord._v02_fields rfl d h]
    decide
  · intro r d h
    rw [ip_as_dict_keys r "0.2" IPRecord._V02_fields rfl d h]
    decide
  · intro r d h
    rw [acc_as_dict_keys r "0.1" AcceleratorRecord._V01_fields rfl d h]
    decide

/-- Witness for C1 on concrete records of each type. -/
theorem spec_C1_witness :
    List.Perm (((emptyCloud.as_dict (some "0.4")).toOption.getD []).map Prod.fst)
      CloudRecord._v04_fields ∧
    List.Perm (((emptyCloud.as_dict (some "0.2")).toOption.getD []).map Prod.fst)
      CloudRecord._v02_fields ∧
    List.Perm (((sampleIP.as_dict (some "0.2")).toOption.getD []).map Prod.fst)
      IPRecord._V02_fields ∧
    List.Perm (((sampleAcc.as_dict (some "0.1")).toOption.getD []).map Prod.fst)
      AcceleratorRecord._V01_fields :=
  ⟨spec_C1_version_field_sets.2.1 emptyCloud
    ((emptyCloud.as_dict (some "0.4")).toOption.getD []) (by decide),
   spec_C1_version_field_sets.2.2.1 emptyCloud
    ((emptyCloud.as_dict (some "0.2")).toOption.getD []) (by decide),
   spec_C1_version_field_sets.2.2.2.2.1 sampleIP
    ((sampleIP.as_dict (some "0.2")).toOption.getD []) (by decide),
   spec_C1_version_field_sets.2.2.2.2.2.2.1 sampleAcc
    ((sampleAcc.as_dict (some "0.1")).toOption.getD []) (by decide)⟩

/-- The digit character of d < 10 has code 48 + d. -/
theorem digitChar_toNat (d : Nat) (h : d < 10) : (digitChar d).toNat = 48 + d := by
  interval_cases d <;> decide

/-- Digit characters satisfy the digit test. -/
theorem isDig_digitChar (d : Nat) (h : d < 10) : isDig (digitChar d) = true := by
  interval_cases d <;> decide

/-- The fueled digit extraction agrees with the little-endian digits of
the number, reversed, whenever the fuel is at least the number. -/
theorem natDigitsAux_eq : ∀ fuel n : Nat, n ≤ fuel →
    natDigitsAux fuel n = ((Nat.digits 10 n).map digitChar).reverse := by
  intro fuel
  induction fuel with
  | zero =>
    intro n hn
    interval_cases n
    simp [natDigitsAux]
  | succ fuel ih =>
    intro n hn
    match n with
    | 0 => simp [natDigitsAux]
    | n + 1 =>
      have hdiv : (n + 1) / 10 ≤ fuel := by
        have h2 : (n + 1) / 10 < n + 1 :=
          Nat.div_lt_self (Nat.succ_pos n) (by norm_num)
        omega
      rw [show natDigitsAux (fuel + 1) (n + 1) =
          natDigitsAux fuel ((n + 1) / 10) ++ [digitChar ((n + 1) % 10)]
          from rfl]
      rw [ih _ hdiv]
      rw [Nat.digits_def' (by norm_num : (1 : ℕ) < 10) (Nat.succ_pos n)]
      simp [List.reverse_cons]

/-- The decimal rendering of a natural number is nonempty. -/
theorem natDigits_ne_nil (n : Nat) : natDigits n ≠ [] := by
  unfold natDigits
  split
  · simp
  · rename_i hn
    intro hcon
    rw [natDigitsAux_eq n n le_rfl, List.reverse_eq_nil_iff,
        List.map_eq_nil_iff] at hcon
    exact hn (Nat.digits_eq_nil_iff_eq_zero.mp hcon)

/-- Every character of the decimal rendering is a digit. -/
theorem natDigits_digits (n : Nat) : ∀ c ∈ natDigits n, isDig c = true := by
  intro c hc
  unfold natDigits at hc
  split at hc
  · simp at hc
    subst hc
    decide
  · rw [natDigitsAux_eq n n le_rfl, List.mem_reverse, List.mem_map] at hc
    obtain ⟨d, hd, rfl⟩ := hc
    exact isDig_digitChar d (Nat.digits_lt_base (by norm_num) hd)

/-- Digit characters are distinct from the parser's delimiter
characters. -/
theorem isDig_facts (x : Char) (h : isDig x = true) :
    x ≠ '-' ∧ x ≠ 'n' ∧ x ≠ '"' ∧ x ≠ 'e' := by
  refine ⟨?_, ?_, ?_, ?_⟩ <;> intro hx <;> subst hx <;> exact absurd h (by decide)

/-- Appending one character to the digit accumulator run. -/
theorem parseNatAcc_append (acc : Nat) (xs : List Char) (c : Char) :
    parseNatAcc acc (xs ++ [c]) = 10 * parseNatAcc acc xs + (c.toNat - 48) := by
  simp [parseNatAcc, List.foldl_append]

/-- The accumulator parser inverts the digit rendering of a digit
list. -/
theorem parseNatAcc_digitsList (L : List Nat) (hL : ∀ d ∈ L, d < 10) :
    ∀ acc, parseNatAcc acc ((L.map digitChar).reverse) =
      acc * 10 ^ L.length + Nat.ofDigits 10 L := by
  induction L with
  | nil =>
    intro acc
    simp [parseNatAcc, Nat.ofDigits_nil]
  | cons d t ih =>
    intro acc
    have hd : d < 10 := hL d (by simp)
    have ht : ∀ x ∈ t, x < 10 := fun x hx => hL x (by simp [hx])
    rw [List.map_cons, List.reverse_cons, parseNatAcc_append, ih ht acc,
        digitChar_toNat d hd, Nat.ofDigits_cons, Nat.add_sub_cancel_left]
    simp only [List.length_cons, pow_succ]
    ring

/-- The accumulator parser inverts the decimal rendering. -/
theorem parseNat_natDigits (n : Nat) : parseNatAcc 0 (natDigits n) = n := by
  unfold natDigits
  split
  · rename_i h
    subst h
    decide
  · rw [natDigitsAux_eq n n le_rfl,
        parseNatAcc_digitsList _ (fun d hd => Nat.digits_lt_base (by norm_num) hd) 0]
    simp [Nat.ofDigits_digits]

/-- takeWhile over an all-satisfying prefix. -/
theorem takeWhile_append_all (p : Char → Bool) (xs ys : List Char)
    (h : ∀ x ∈ xs, p x = true) :
    (xs ++ ys).takeWhile p = xs ++ ys.takeWhile p := by
  induction xs with
  | nil => simp
  | cons x t ih =>
    have hx : p x = true := h x (by simp)
    simp [List.takeWhile_cons, hx, ih (fun a ha => h a (by simp [ha]))]

/-- dropWhile over an all-satisfying prefix. -/
theorem dropWhile_append_all (p : Char → Bool) (xs ys : List Char)
    (h : ∀ x ∈ xs, p x = true) :
    (xs ++ ys).dropWhile p = ys.dropWhile p := by
  induction xs with
  | nil => simp
  | cons x t ih =>
    have hx : p x = true := h x (by simp)
    simp [List.dropWhile_cons, hx, ih (fun a ha => h a (by simp [ha]))]

/-- A digit run followed by a non-digit splits as expected. -/
theorem digits_head_parse (n : Nat) (c : Char) (t : List Char)
    (hd : isDig c = false) :
    (natDigits n ++ c :: t).takeWhile isDig = natDigits n ∧
    (natDigits n ++ c :: t).dropWhile isDig = c :: t := by
  constructor
  · rw [takeWhile_append_all _ _ _ (natDigits_digits n)]
    simp [List.takeWhile_cons, hd]
  · rw [dropWhile_append_all _ _ _ (natDigits_digits n)]
    simp [List.dropWhile_cons, hd]

/-- `parseNumCore` on a rendered digit run followed by a non-digit
non-exponent character. -/
theorem parseNumCore_int (n : Nat) (neg : Bool) (c : Char) (t : List Char)
    (hdg : isDig c = false) (he : c ≠ 'e') :
    parseNumCore (natDigits n ++ c :: t) neg =
      some (.vInt ((if neg then -1 else 1) * (n : Int)), c :: t) := by
  have h1 := (digits_head_parse n c t hdg).1
  have h2 := (digits_head_parse n c t hdg).2
  have hne : (natDigits n).isEmpty = false := by
    rw [List.isEmpty_eq_false]
    exact natDigits_ne_nil n
  simp [parseNumCore, h1, h2, hne, he, parseNat_natDigits]

/-- `parseNumCore` on a rendered mantissa, exponent marker and rendered
exponent, followed by a non-digit character. -/
theorem parseNumCore_float (n : Nat) (neg : Bool) (k : Nat) (c : Char)
    (t : List Char) (hdg : isDig c = false) :
    parseNumCore (natDigits n ++ 'e' :: '-' :: (natDigits k ++ c :: t)) neg =
      some (.vFloat ((((if neg then -1 else 1) * (n : Int) : Int) : Rat) /
        (10 : Rat) ^ k), c :: t) := by
  have h1 := (digits_head_parse n 'e' ('-' :: (natDigits k ++ c :: t)) (by decide)).1
  have h2 := (digits_head_parse n 'e' ('-' :: (natDigits k ++ c :: t)) (by decide)).2
  have h3 := (digits_head_parse k c t hdg).1
  have h4 := (digits_head_parse k c t hdg).2
  have hne : (natDigits n).isEmpty = false := by
    rw [List.isEmpty_eq_false]
    exact natDigits_ne_nil n
  have hke : (natDigits k).isEmpty = false := by
    rw [List.isEmpty_eq_false]
    exact natDigits_ne_nil k
  simp [parseNumCore, h1, h2, h3, h4, hne, hke, parseNat_natDigits]

/-- `parseNum` dispatches a digit-headed input to the unsigned core
parser. -/
theorem parseNum_digits_start (n : Nat) (l2 : List Char) :
    parseNum (natDigits n ++ l2) = parseNumCore (natDigits n ++ l2) false := by
  rcases hnd : natDigits n with _ | ⟨c0, cs⟩
  · exact absurd hnd (natDigits_ne_nil _)
  · have hc0 : isDig c0 = true := by
      apply natDigits_digits n
      rw [hnd]
      exact List.mem_cons_self _ _
    simp [parseNum, (isDig_facts c0 hc0).1]

/-- `parseNum` inverts the integer rendering when followed by a
non-digit non-exponent character. -/
theorem parseNum_int (m : Int) (c : Char) (t : List Char)
    (hdg : isDig c = false) (he : c ≠ 'e') :
    parseNum (dumpInt m ++ c :: t) = some (.vInt m, c :: t) := by
  by_cases hm : m < 0
  · rw [show dumpInt m = '-' :: natDigits m.natAbs from by simp [dumpInt, hm],
        List.cons_append]
    rw [show parseNum ('-' :: (natDigits m.natAbs ++ c :: t)) =
        parseNumCore (natDigits m.natAbs ++ c :: t) true from by
      simp [parseNum]]
    rw [parseNumCore_int m.natAbs true c t hdg he]
    have hms : (if (true : Bool) = true then (-1 : Int) else 1) * (m.natAbs : Int) = m := by
      rw [if_pos rfl]
      omega
    rw [hms]
  · rw [show dumpInt m = natDigits m.natAbs from by simp [dumpInt, hm]]
    rw [parseNum_digits_start m.natAbs (c :: t)]
    rw [parseNumCore_int m.natAbs false c t hdg he]
    have hms : (if (false : Bool) = true then (-1 : Int) else 1) * (m.natAbs : Int) = m := by
      rw [if_neg Bool.false_ne_true]
      omega
    rw [hms]

/-- The mantissa of an exact-decimal float recovers the float when
divided back by the power of ten. -/
theorem floatMantissa_recover (q : Rat) (hq : (q * (10 : Rat) ^ q.den).den = 1) :
    ((floatMantissa q : Int) : Rat) / (10 : Rat) ^ q.den = q := by
  have h10 : ((10 : Rat) ^ q.den) ≠ 0 := pow_ne_zero _ (by norm_num)
  have hm : ((floatMantissa q : Int) : Rat) = q * (10 : Rat) ^ q.den := by
    unfold floatMantissa
    exact Rat.coe_int_num_of_den_eq_one hq
  rw [hm, mul_div_cancel_right₀ _ h10]

/-- `parseNum` inverts the float rendering when followed by a non-digit
character. -/
theorem parseNum_float (q : Rat) (hq : (q * (10 : Rat) ^ q.den).den = 1)
    (c : Char) (t : List Char) (hdg : isDig c = false) :
    parseNum (dumpFloat q ++ c :: t) = some (.vFloat q, c :: t) := by
  have hsplit : dumpFloat q ++ c :: t =
      dumpInt (floatMantissa q) ++ ('e' :: '-' :: (natDigits q.den ++ c :: t)) := by
    simp [dumpFloat, List.append_assoc]
  rw [hsplit]
  by_cases hm : floatMantissa q < 0
  · rw [show dumpInt (floatMantissa q) = '-' :: natDigits (floatMantissa q).natAbs
        from by simp [dumpInt, hm], List.cons_append]
    rw [show parseNum ('-' :: (natDigits (floatMantissa q).natAbs ++
        ('e' :: '-' :: (natDigits q.den ++ c :: t)))) =
        parseNumCore (natDigits (floatMantissa q).natAbs ++
          ('e' :: '-' :: (natDigits q.den ++ c :: t))) true from by
      simp [parseNum]]
    rw [parseNumCore_float (floatMantissa q).natAbs true q.den c t hdg]
    have hms : (if (true : Bool) = true then (-1 : Int) else 1) *
        ((floatMantissa q).natAbs : Int) = floatMantissa q := by
      rw [if_pos rfl]
      omega
    rw [hms, floatMantissa_recover q hq]
  · rw [show dumpInt (floatMantissa q) = natDigits (floatMantissa q).natAbs
        from by simp [dumpInt, hm]]
    rw [parseNum_digits_start (floatMantissa q).natAbs
        ('e' :: '-' :: (natDigits q.den ++ c :: t))]
    rw [parseNumCore_float (floatMantissa q).natAbs false q.den c t hdg]
    have hms : (if (false : Bool) = true then (-1 : Int) else 1) *
        ((floatMantissa q).natAbs : Int) = floatMantissa q := by
      rw [if_neg Bool.false_ne_true]
      omega
    rw [hms, floatMantissa_recover q hq]

/-- Hexadecimal digit characters decode to their value. -/
theorem hexVal_hexDigit (d : Nat) (h : d < 16) : hexVal (hexDigit d) = d := by
  interval_cases d <;> decide

/-- The string-body parser inverts the escaping of a character list
followed by the closing quote. -/
theorem parseStrBody_round (cs : List Char) (rest : List Char) :
    parseStrBody ((cs.map escChar).flatten ++ '"' :: rest) = some (cs, rest) := by
  induction cs with
  | nil =>
    rw [parseStrBody.eq_def]
    simp
  | cons c cs ih =>
    by_cases h1 : c = '"'
    · subst h1
      rw [show ((('"' :: cs).map escChar).flatten ++ '"' :: rest) =
          '\\' :: '"' :: ((cs.map escChar).flatten ++ '"' :: rest) from by
        simp [escChar]]
      rw [parseStrBody.eq_def]
      simp [ih]
    · by_cases h2 : c = '\\'
      · subst h2
        rw [show ((('\\' :: cs).map escChar).flatten ++ '"' :: rest) =
            '\\' :: '\\' :: ((cs.map escChar).flatten ++ '"' :: rest) from by
          simp [escChar]]
        rw [parseStrBody.eq_def]
        simp [ih]
      · by_cases h3 : c.toNat < 32
        · have hdiv : c.toNat / 16 < 16 := by omega
          have hmod : c.toNat % 16 < 16 := Nat.mod_lt _ (by norm_num)
          have h0 : hexVal '0' = 0 := by decide
          rw [show (((c :: cs).map escChar).flatten ++ '"' :: rest) =
              '\\' :: 'u' :: '0' :: '0' :: hexDigit (c.toNat / 16) ::
                hexDigit (c.toNat % 16) ::
                ((cs.map escChar).flatten ++ '"' :: rest) from by
            simp [escChar, h1, h2, h3]]
          rw [parseStrBody.eq_def]
          simp only [ih, h0, hexVal_hexDigit _ hdiv, hexVal_hexDigit _ hmod]
          have hc : ((0 * 16 + 0) * 16 + c.toNat / 16) * 16 + c.toNat % 16 =
              c.toNat := by omega
          have hc2 : c.toNat / 16 * 16 + c.toNat % 16 = c.toNat := by omega
          simp [hc, hc2, Char.ofNat_toNat, ih]
        · rw [show (((c :: cs).map escChar).flatten ++ '"' :: rest) =
              c :: ((cs.map escChar).flatten ++ '"' :: rest) from by
            simp [escChar, h1, h2, h3]]
          rw [parseStrBody.eq_def]
          simp [h1, h2, ih]

/-- The first character of an integer rendering is a minus sign or a
digit, never a letter or a quote. -/
theorem dumpInt_head (m : Int) :
    ∃ c0 cs, dumpInt m = c0 :: cs ∧ c0 ≠ 'n' ∧ c0 ≠ '"' := by
  by_cases hm : m < 0
  · exact ⟨'-', natDigits m.natAbs, by simp [dumpInt, hm], by decide, by decide⟩
  · rcases hnd : natDigits m.natAbs with _ | ⟨c0, cs⟩
    · exact absurd hnd (natDigits_ne_nil _)
    · have hc0 : isDig c0 = true := by
        apply natDigits_digits
        rw [hnd]
        exact List.mem_cons_self _ _
      exact ⟨c0, cs, by simp [dumpInt, hm, hnd], (isDig_facts c0 hc0).2.1,
             (isDig_facts c0 hc0).2.2.1⟩

/-- One serialized value followed by a non-digit non-exponent delimiter
parses back to the value. -/
theorem parseVal_round (v : PyVal) (out : List Char) (hv : dumpVal v = some out)
    (c : Char) (t : List Char) (hdg : isDig c = false) (he : c ≠ 'e')
    (hsafe : floatDecadic v = true) :
    parseVal (out ++ c :: t) = some (v, c :: t) := by
  cases v with
  | vNone =>
    injection hv with hv
    subst hv
    simp [parseVal]
  | vInt n =>
    injection hv with hv
    subst hv
    obtain ⟨c0, cs, hd0, hn0, hq0⟩ := dumpInt_head n
    have hstep : parseVal (dumpInt n ++ c :: t) = parseNum (dumpInt n ++ c :: t) := by
      rw [hd0, List.cons_append]
      simp [parseVal, hn0, hq0]
    rw [hstep]
    exact parseNum_int n c t hdg he
  | vFloat q =>
    injection hv with hv
    subst hv
    have hq : (q * (10 : Rat) ^ q.den).den = 1 := by
      simpa [floatDecadic] using hsafe
    obtain ⟨c0, cs, hd0, hn0, hq0⟩ := dumpInt_head (floatMantissa q)
    have hdf : dumpFloat q = c0 :: (cs ++ 'e' :: '-' :: natDigits q.den) := by
      simp [dumpFloat, hd0]
    have hstep : parseVal (dumpFloat q ++ c :: t) = parseNum (dumpFloat q ++ c :: t) := by
      rw [hdf, List.cons_append]
      simp [parseVal, hn0, hq0]
    rw [hstep]
    exact parseNum_float q hq c t hdg
  | vStr s =>
    injection hv with hv
    subst hv
    rw [show escString s ++ c :: t =
        '"' :: ((s.data.map escChar).flatten ++ '"' :: (c :: t)) from by
      simp [escString]]
    simp [parseVal, parseStrBody_round]
  | vDatetime us => exact absurd hv (by simp [dumpVal])

/-- One-step unfolding of the member serializer on a two-or-more
element list. -/
theorem dumpMembers_cons2 (kv r1 : String × PyVal) (rs : List (String × PyVal)) :
    dumpMembers (kv :: r1 :: rs) =
      (match dumpMember kv with
       | none => none
       | some a =>
         match dumpMembers (r1 :: rs) with
         | none => none
         | some b => some (a ++ ',' :: ' ' :: b)) := rfl

/-- The fueled member parser inverts the member serialization of a
nonempty dict, consuming the closing brace. -/
theorem parseMembers_round (d : List (String × PyVal)) :
    d ≠ [] → ∀ (out : List Char), dumpMembers d = some out →
      jsonSafe d = true → ∀ fuel, d.length ≤ fuel →
      parseMembers fuel (out ++ [rbrace]) = some (d, []) := by
  induction d with
  | nil => exact fun hne => absurd rfl hne
  | cons kv rest ih =>
    obtain ⟨k, v⟩ := kv
    intro hne out hout hsafe fuel hfuel
    rcases fuel with _ | fuel
    · simp at hfuel
    simp only [jsonSafe, List.all_cons, Bool.and_eq_true] at hsafe
    obtain ⟨hs1, hs2⟩ := hsafe
    rcases hv : dumpVal v with _ | vout
    · rw [show dumpMembers ((k, v) :: rest) = none from by
        simp [dumpMembers, dumpMember, hv]] at hout
      exact Option.noConfusion hout
    have hdm : dumpMember (k, v) = some (escString k ++ ':' :: ' ' :: vout) := by
      simp [dumpMember, hv]
    cases rest with
    | nil =>
      have hout2 : out = escString k ++ ':' :: ' ' :: vout := by
        rw [show dumpMembers [(k, v)] = some (escString k ++ ':' :: ' ' :: vout)
            from by simp [dumpMembers, hdm]] at hout
        injection hout with h
        exact h.symm
      subst hout2
      rw [show (escString k ++ ':' :: ' ' :: vout) ++ [rbrace] =
          '"' :: ((k.data.map escChar).flatten ++
            '"' :: (':' :: ' ' :: (vout ++ rbrace :: []))) from by
        simp [escString]]
      simp only [parseMembers]
      rw [parseStrBody_round]
      simp only
      rw [parseVal_round v vout hv rbrace [] (by decide) (by decide) hs1]
      simp
    | cons kv2 rest2 =>
      rcases hout2 : dumpMembers (kv2 :: rest2) with _ | bout
      · rw [dumpMembers_cons2, hdm, hout2] at hout
        simp at hout
      have houteq : out = (escString k ++ ':' :: ' ' :: vout) ++
          ',' :: ' ' :: bout := by
        rw [dumpMembers_cons2, hdm, hout2] at hout
        simp only at hout
        injection hout with h
        exact h.symm
      subst houteq
      rw [show ((escString k ++ ':' :: ' ' :: vout) ++ ',' :: ' ' :: bout) ++ [rbrace] =
          '"' :: ((k.data.map escChar).flatten ++
            '"' :: (':' :: ' ' :: (vout ++ ',' :: (' ' :: (bout ++ [rbrace]))))) from by
        simp [escString]]
      simp only [parseMembers]
      rw [parseStrBody_round]
      simp only
      rw [parseVal_round v vout hv ',' (' ' :: (bout ++ [rbrace])) (by decide)
          (by decide) hs1]
      have hcr : (',' : Char) ≠ rbrace := by decide
      simp only [hcr, if_false, reduceIte]
      rw [ih (by simp) bout hout2 (by simpa [jsonSafe] using hs2) fuel
          (by simpa using Nat.le_of_succ_le_succ hfuel)]
      simp

/-- One-step unfolding of the member serializer. -/
theorem dumpMembers_cons_eq (kv : String × PyVal) (rest : List (String × PyVal)) :
    dumpMembers (kv :: rest) =
      (match dumpMember kv with
       | none => none
       | some a =>
         match rest with
         | [] => some a
         | _ :: _ =>
           match dumpMembers rest with
           | none => none
           | some b => some (a ++ ',' :: ' ' :: b)) := rfl

/-- A dict has at most one more member than its serialization has
characters. -/
theorem dumpMembers_length (d : List (String × PyVal)) :
    ∀ out, dumpMembers d = some out → d.length ≤ out.length + 1 := by
  induction d with
  | nil =>
    intro out h
    simp
  | cons kv rest ih =>
    intro out h
    rcases hdm : dumpMember kv with _ | a
    · rw [dumpMembers_cons_eq, hdm] at h
      simp at h
    · rw [dumpMembers_cons_eq, hdm] at h
      cases rest with
      | nil =>
        simp at h
        simp
      | cons r2 rs =>
        rcases hb : dumpMembers (r2 :: rs) with _ | bout
        · rw [hb] at h
          simp at h
        · rw [hb] at h
          simp only at h
          injection h with h2
          subst h2
          have h3 := ih bout hb
          simp only [List.length_cons, List.length_append] at h3 ⊢
          omega

/-- The serialization of a nonempty dict is a nonempty member run. -/
theorem dumpMembers_ne_nil (kv : String × PyVal) (rest : List (String × PyVal))
    (ms : List Char) (h : dumpMembers (kv :: rest) = some ms) : ms ≠ [] := by
  rcases hdm : dumpMember kv with _ | a
  · rw [dumpMembers_cons_eq, hdm] at h
    simp at h
  · have ha : ∃ tail, a = '"' :: tail := by
      rcases hv : dumpVal kv.2 with _ | vout
      · rw [show dumpMember kv = none from by simp [dumpMember, hv]] at hdm
        exact Option.noConfusion hdm
      · rw [show dumpMember kv = some (escString kv.1 ++ ':' :: ' ' :: vout)
            from by simp [dumpMember, hv]] at hdm
        injection hdm with h2
        refine ⟨(kv.1.data.map escChar).flatten ++ '"' :: ':' :: ' ' :: vout, ?_⟩
        rw [← h2]
        simp [escString]
    obtain ⟨tail, rfl⟩ := ha
    rw [dumpMembers_cons_eq, hdm] at h
    cases rest with
    | nil =>
      simp only at h
      injection h with h2
      subst h2
      simp
    | cons r2 rs =>
      rcases hb : dumpMembers (r2 :: rs) with _ | bout
      · rw [hb] at h
        simp at h
      · rw [hb] at h
        simp only at h
        injection h with h2
        subst h2
        simp

/-- One-step unfolding of the JSON object parser entry point. -/
theorem json_loads_cons (L : List Char) :
    json_loads ⟨lbrace :: L⟩ =
      (if L = [rbrace] then some [] else
        match parseMembers L.length L with
        | some (d, []) => some d
        | _ => none) := rfl

/-- The JSON parser inverts the JSON serializer on every dict whose
float values are exact decimals. -/
theorem json_loads_dumps (d : List (String × PyVal)) (hsafe : jsonSafe d = true)
    (s : String) (h : json_dumps d = some s) : json_loads s = some d := by
  cases d with
  | nil =>
    rw [show json_dumps ([] : List (String × PyVal)) =
        some ⟨lbrace :: [] ++ [rbrace]⟩ from by simp [json_dumps, dumpMembers]] at h
    injection h with h2
    subst h2
    rfl
  | cons kv rest =>
    rcases hms : dumpMembers (kv :: rest) with _ | ms
    · rw [show json_dumps (kv :: rest) = none from by simp [json_dumps, hms]] at h
      exact Option.noConfusion h
    · rw [show json_dumps (kv :: rest) = some ⟨lbrace :: ms ++ [rbrace]⟩ from by
        simp [json_dumps, hms]] at h
      injection h with h2
      subst h2
      have hne : ms ≠ [] := dumpMembers_ne_nil kv rest ms hms
      have hlen := dumpMembers_length (kv :: rest) ms hms
      have hcon : ¬ (ms ++ [rbrace] = [rbrace]) := by
        intro hcon
        apply hne
        have hlc := congrArg List.length hcon
        simp at hlc
        exact hlc
      rw [List.cons_append, json_loads_cons (ms ++ [rbrace]), if_neg hcon]
      rw [parseMembers_round (kv :: rest) (by simp) ms hms hsafe
          (ms ++ [rbrace]).length (by
            simp only [List.length_append, List.length_cons,
                       List.length_nil] at hlen ⊢
            omega)]

/-- C9: for every record type and version, parsing the JSON string
produced by as_json yields exactly the as_dict mapping; the jsonSafe
hypothesis states that the dict's float values are exact finite
decimals, which every value a Python float can hold satisfies. -/
theorem spec_C9_json_roundtrip :
    (∀ (r : CloudRecord) (v : Option String) (s : String)
       (d : List (String × PyVal)),
      r.as_json v = .ok s → r.as_dict v = .ok d → jsonSafe d = true →
      json_loads s = some d) ∧
    (∀ (r : IPRecord) (v : Option String) (s : String)
       (d : List (String × PyVal)),
      r.as_json v = .ok s → r.as_dict v = .ok d → jsonSafe d = true →
      json_loads s = some d) ∧
    (∀ (r : AcceleratorRecord) (v : Option String) (s : String)
       (d : List (String × PyVal)),
      r.as_json v = .ok s → r.as_dict v = .ok d → jsonSafe d = true →
      json_loads s = some d) := by
  refine ⟨?_, ?_, ?_⟩ <;> intro r v s d hj hd hsafe
  · unfold CloudRecord.as_json at hj
    rw [hd] at hj
    simp only at hj
    rcases hdump : json_dumps d with _ | s2 <;> rw [hdump] at hj
    · exact Except.noConfusion hj
    · simp only at hj
      injection hj with h2
      subst h2
      exact json_loads_dumps d hsafe s2 hdump
  · unfold IPRecord.as_json at hj
    rw [hd] at hj
    simp only at hj
    rcases hdump : json_dumps d with _ | s2 <;> rw [hdump] at hj
    · exact Except.noConfusion hj
    · simp only at hj
      injection hj with h2
      subst h2
      exact json_loads_dumps d hsafe s2 hdump
  · unfold AcceleratorRecord.as_json at hj
    rw [hd] at hj
    simp only at hj
    rcases hdump : json_dumps d with _ | s2 <;> rw [hdump] at hj
    · exact Except.noConfusion hj
    · simp only at hj
      injection hj with h2
      subst h2
      exact json_loads_dumps d hsafe s2 hdump

set_option maxRecDepth 4000 in
/-- Witness for C9 on concrete records of each record type. -/
theorem spec_C9_witness :
    json_loads ((emptyCloud.as_json none).toOption.getD "")
      = some ((emptyCloud.as_dict none).toOption.getD []) ∧
    json_loads ((sampleIP.as_json none).toOption.getD "")
      = some ((sampleIP.as_dict none).toOption.getD []) ∧
    json_loads ((sampleAcc.as_json none).toOption.getD "")
      = some ((sampleAcc.as_dict none).toOption.getD []) :=
  ⟨spec_C9_json_roundtrip.1 emptyCloud none _ _ (by decide) (by decide)
    (by decide),
   spec_C9_json_roundtrip.2.1 sampleIP none _ _ (by decide) (by decide)
    (by decide),
   spec_C9_json_roundtrip.2.2 sampleAcc none _ _ (by decide) (by decide)
    (by decide)⟩
